import Mathlib

/-!
Verification of the Space Black autonomous browser tool
(`tools/skills/browser/browser.py`, staged build), as a shallow embedding.

Modelling conventions, used throughout:
* Pure Python logic (string building, the AX-tree walk, the key lookup
  table, branch structure of the dispatcher) is translated directly into
  executable Lean definitions with the source's names (leading `_`
  dropped, `snake_case` kept or camelCased where Lean prefers it).
* Effectful Chrome-DevTools-Protocol / Playwright primitives are modelled
  by (a) an environment record supplying each primitive's outcome
  (`box`, `focusOk`, goto outcome, wait outcomes, ...) and (b) a trace of
  emitted `CdpEvent`s, so that "performs no interaction" is the statement
  that the emitted trace is empty.
* Python exceptions that a function lets escape are modelled with
  `Except String`; exceptions the source catches locally are folded into
  the outcome fields.
* Machine integers do not overflow in any modelled path, so `Nat`/`Int`
  are used directly.
-/

namespace SpaceBlack

/-- Interactive element record; mirrors the `_Elem` dataclass
(`backend_node_id`, `role`, `name`, `value`, `description`,
`frame_index`, `selector`, with the same defaults). -/
structure Elem where
  backend_node_id : Nat
  role : String
  name : String
  value : String := ""
  description : String := ""
  frame_index : Nat := 0
  selector : String := ""
deriving DecidableEq

/-- The `_INTERACTIVE_ROLES` frozenset. -/
def interactiveRoles : List String :=
  ["button", "link",
   "textbox", "searchbox", "combobox", "spinbutton",
   "checkbox", "radio",
   "menuitem", "menuitemcheckbox", "menuitemradio",
   "option", "tab", "switch", "treeitem",
   "slider", "listbox",
   "columnheader", "rowheader", "gridcell"]

/-- The `_CONTENT_ROLES` frozenset. -/
def contentRoles : List String :=
  ["heading", "paragraph", "text", "statictext",
   "blockquote", "caption", "code",
   "listitem", "cell", "definition",
   "status", "alert", "log", "marquee", "timer",
   "contentinfo", "complementary", "main", "article",
   "navigation", "banner", "region", "form",
   "dialog", "alertdialog"]

/-- Constant `_MAX_SNAPSHOT_CHARS = 4000`. -/
def maxSnapshotChars : Nat := 4000

/-- Constant `_MAX_ELEMENTS = 80`. -/
def maxElements : Nat := 80

/-- Python `str.capitalize()`: first character upper-cased, the rest
lower-cased. -/
def pyCapitalize (s : String) : String :=
  match s.data with
  | [] => ""
  | c :: cs => String.mk (c.toUpper :: cs.map Char.toLower)

/-- Python `repr` of a string, for the strings this program feeds it
(names and values without quotes, backslashes or control characters):
the text wrapped in single quotes.  The claims under verification never
depend on `repr`'s escaping rules, only on the length and presence of
the quoted text. -/
def pyRepr (s : String) : String := "\x27" ++ s ++ "\x27"

/-- Python format spec `{n:>3}`: decimal digits right-aligned in a field
of width 3, space-padded. -/
def fmtRef3 (n : Nat) : String :=
  let s := toString n
  if s.length < 3 then String.mk (List.replicate (3 - s.length) ' ') ++ s else s

/-- Indentation `"  " * min(depth, 6)` used by the snapshot walk. -/
def indentStr (depth : Nat) : String :=
  String.join (List.replicate (min depth 6) "  ")

/-! ## CDP interaction primitives as event traces -/

/-- Parameter block of one `Input.dispatchKeyEvent` call: the `key`,
`windowsVirtualKeyCode`/`nativeVirtualKeyCode`, `modifiers` and `code`
fields (the remaining fields are constants in the source). -/
structure KeyParams where
  key : String
  vk : Nat
  mods : Nat
  code : String
deriving DecidableEq

/-- One protocol call that acts on the page, as emitted by the
interaction primitives (`Input.dispatchMouseEvent`,
`Input.dispatchKeyEvent`, `Input.insertText`, `DOM.focus`,
`Runtime.callFunctionOn`, `DOM.setFileInputFiles`) or by a Playwright
frame locator in the iframe branches. -/
inductive CdpEvent where
  | mouseMoved (x y : Int)
  | mousePressed (x y : Int)
  | mouseReleased (x y : Int)
  | keyDown (p : KeyParams)
  | keyUp (p : KeyParams)
  | insertText (t : String)
  | domFocus (backendId : Nat)
  | jsClick (backendId : Nat)
  | runtimeCallFn (backendId : Nat)
  | setFileInputFiles (path : String) (backendId : Nat)
  | frameClick (frameIdx : Nat) (sel : String)
  | frameFill (frameIdx : Nat) (sel : String) (t : String)
  | frameType (frameIdx : Nat) (sel : String) (t : String)
  | frameHover (frameIdx : Nat) (sel : String)
deriving DecidableEq

/-- The `_KEY_MAP` lookup table of `_cdp_key` (staged build): named key →
(CDP key name, virtual-key code, modifier bitmask with Alt=1, Ctrl=2,
Meta=4, Shift=8). -/
def keyMap : String → Option (String × Nat × Nat)
  | "Tab"       => some ("Tab", 9, 0)
  | "Enter"     => some ("Return", 13, 0)
  | "Return"    => some ("Return", 13, 0)
  | "Escape"    => some ("Escape", 27, 0)
  | "Backspace" => some ("Backspace", 8, 0)
  | "Delete"    => some ("Delete", 46, 0)
  | "Space"     => some (" ", 32, 0)
  | "ArrowDown" => some ("ArrowDown", 40, 0)
  | "ArrowUp"   => some ("ArrowUp", 38, 0)
  | "ArrowLeft" => some ("ArrowLeft", 37, 0)
  | "ArrowRight" => some ("ArrowRight", 39, 0)
  | "Home"      => some ("Home", 36, 0)
  | "End"       => some ("End", 35, 0)
  | "PageUp"    => some ("PageUp", 33, 0)
  | "PageDown"  => some ("PageDown", 34, 0)
  | "Control+a" => some ("a", 65, 2)
  | "Control+c" => some ("c", 67, 2)
  | "Control+v" => some ("v", 86, 2)
  | "Control+x" => some ("x", 88, 2)
  | "Control+z" => some ("z", 90, 2)
  | "Control+Enter" => some ("Return", 13, 2)
  | "Shift+Tab" => some ("Tab", 9, 8)
  | "Shift+Enter" => some ("Return", 13, 8)
  | _ => none

/-- The parameter block `_cdp_key` computes for a requested key: table
hit uses the mapped triple; a miss uses the raw key with
`ord(key[0])` when the key is a single character (else code 0) and
modifiers 0.  `code` is `f"Key{key_name.upper()}"` for one-character key
names, else the key name itself. -/
def cdpKeyParams (k : String) : KeyParams :=
  match keyMap k with
  | some (n, c, m) =>
      { key := n, vk := c, mods := m,
        code := if n.length = 1 then "Key" ++ n.toUpper else n }
  | none =>
      let c := if k.length = 1 then (k.get 0).toNat else 0
      { key := k, vk := c, mods := 0,
        code := if k.length = 1 then "Key" ++ k.toUpper else k }

/-- The events `_cdp_key` dispatches: one `keyDown` then one `keyUp`,
both with the same parameter block. -/
def cdpKeyEvents (k : String) : List CdpEvent :=
  [.keyDown (cdpKeyParams k), .keyUp (cdpKeyParams k)]

/-- The three mouse events `_cdp_click` sends at a point:
move, press, release. -/
def cdpClickEvents (x y : Int) : List CdpEvent :=
  [.mouseMoved x y, .mousePressed x y, .mouseReleased x y]

/-! ## Snapshot builder (`_build_snapshot`)

The CDP tree arrives as a flat node list with `nodeId`/`childIds`
cross-references; `_build_snapshot` reconstructs parent/child structure
through `id_to_node` and walks from the root ids.  The embedding takes
the already-resolved forest as input: each `AXNode` carries the fields
the walk reads (`ignored`, the normalised role/name/value from
`_ax_role`/`_ax_name`/`_ax_value`, and the result of `_ax_backend_id`,
which is `none` for a missing or zero `backendDOMNodeId`). -/

inductive AXNode where
  | node (ignored : Bool) (role : String) (name : String) (value : String)
         (backendId : Option Nat) (children : List AXNode)

/-- Mutable state of the walk: the registry and snapshot lines built so
far plus the `ref_counter` / `total_chars` counters. -/
structure BuildState where
  registry : List (Nat × Elem)
  lines : List String
  refCounter : Nat
  totalChars : Nat
deriving DecidableEq

/-- Snapshot line for an interactive element in the tree walk:
`f"{indent}[{ref:>3}] {label}: {detail}"` with the value suffixes for
text-entry and toggle roles. -/
def interactiveLine (indent : String) (refC : Nat) (role name value : String) : String :=
  let label := pyCapitalize role
  let detail := if name ≠ "" then pyRepr name else "(no label)"
  let detail :=
    if value ≠ "" ∧ role ∈ ["textbox", "searchbox", "combobox", "spinbutton"] then
      detail ++ " value=" ++ pyRepr value
    else if value ≠ "" ∧ role ∈ ["checkbox", "radio", "switch"] then
      detail ++ " [" ++ value ++ "]"
    else detail
  indent ++ "[" ++ fmtRef3 refC ++ "] " ++ label ++ ": " ++ detail

/-- Snapshot line for a content-role node (headings, dialogs, alerts,
navigation, list items, other content), truncated to 200 characters as
`line[:197] + "..."`. -/
def contentLine (indent : String) (role name : String) : String :=
  let line :=
    if role = "heading" then indent ++ "## " ++ name
    else if role ∈ ["dialog", "alertdialog"] then indent ++ "⚠ DIALOG: " ++ name
    else if role ∈ ["alert", "status"] then indent ++ "! " ++ name
    else if role ∈ ["navigation"] then indent ++ "[nav: " ++ name ++ "]"
    else if role = "listitem" then indent ++ "• " ++ name
    else indent ++ name
  if line.length > 200 then line.take 197 ++ "..." else line

/- The recursive `walk(node_id, depth)` of `_build_snapshot`, with its
companion loop over child lists.  Guard order, early returns and the
skip of unnamed buttons/links/menuitems follow the source.  The
`elif role in ("statictext", "text")` arm of the source is unreachable
(those roles are members of `_CONTENT_ROLES`, so a truthy name is
consumed by the content arm first) and is therefore not modelled. -/
mutual

def walk (n : AXNode) (depth : Nat) (s : BuildState) : BuildState :=
  if s.totalChars ≥ maxSnapshotChars then s
  else if s.refCounter ≥ maxElements then s
  else match n with
  | .node ignored role name value backendId children =>
    if ignored then walkList children depth s
    else
      let indent := indentStr depth
      if role ∈ interactiveRoles ∧ backendId.isSome then
        if name = "" ∧ role ∈ ["button", "link", "menuitem"] then
          walkList children (depth + 1) s
        else
          let refC := s.refCounter + 1
          let line := interactiveLine indent refC role name value
          { registry := s.registry ++
              [(refC, { backend_node_id := backendId.getD 0, role := role,
                        name := name, value := value })],
            lines := s.lines ++ [line],
            refCounter := refC,
            totalChars := s.totalChars + line.length }
      else
        let s1 :=
          if role ∈ contentRoles ∧ name ≠ "" then
            let line := contentLine indent role name
            { s with lines := s.lines ++ [line],
                     totalChars := s.totalChars + line.length }
          else s
        walkList children (depth + 1) s1

def walkList (ns : List AXNode) (depth : Nat) (s : BuildState) : BuildState :=
  match ns with
  | [] => s
  | n :: rest => walkList rest depth (walk n depth s)

end

/- Flatten the forest back to document order, for the flat fallback
loop that iterates the raw node list. -/
mutual

def flattenNode (n : AXNode) : List AXNode :=
  match n with
  | .node ignored role name value backendId children =>
    .node ignored role name value backendId children :: flattenForest children

def flattenForest (ns : List AXNode) : List AXNode :=
  match ns with
  | [] => []
  | n :: rest => flattenNode n ++ flattenForest rest

end

/-- The flat fallback scan of `_build_snapshot` (runs when the tree walk
produced no lines): iterates the nodes in order, `break`s once either
cap is hit, registers named interactive elements and renders content
roles with names longer than 3 characters. -/
def fallbackScan (ns : List AXNode) (s : BuildState) : BuildState :=
  match ns with
  | [] => s
  | n :: rest =>
    if s.totalChars ≥ maxSnapshotChars ∨ s.refCounter ≥ maxElements then s
    else match n with
    | .node ignored role name _value backendId _children =>
      if ignored then fallbackScan rest s
      else if role ∈ interactiveRoles ∧ backendId.isSome then
        if name = "" ∧ role ∈ ["button", "link", "menuitem"] then fallbackScan rest s
        else
          let refC := s.refCounter + 1
          let line := "[" ++ fmtRef3 refC ++ "] " ++ pyCapitalize role ++ ": " ++ pyRepr name
          fallbackScan rest
            { registry := s.registry ++
                [(refC, { backend_node_id := backendId.getD 0, role := role,
                          name := name, value := _value })],
              lines := s.lines ++ [line],
              refCounter := refC,
              totalChars := s.totalChars + line.length }
      else if role ∈ contentRoles ∧ name ≠ "" ∧ name.length > 3 then
        let line := (if role = "heading" then "## " else "") ++ name.take 200
        fallbackScan rest
          { s with lines := s.lines ++ [line],
                   totalChars := s.totalChars + line.length }
      else fallbackScan rest s

/-- Function `_build_snapshot(nodes)`: tree walk from the roots, flat fallback
when no lines were produced, and the rendered body. -/
def buildSnapshot (nodes : List AXNode) : List (Nat × Elem) × String :=
  let s0 : BuildState := { registry := [], lines := [], refCounter := 0, totalChars := 0 }
  let s1 := walkList nodes 0 s0
  let s2 := if s1.lines = [] then fallbackScan (flattenForest nodes) s1 else s1
  (s2.registry,
   if s2.lines ≠ [] then String.intercalate "\n" s2.lines
   else "(empty page — no content detected)")

/-! ## Iframe element discovery (`_discover_iframe_elements`) -/

/-- One record of the array the in-frame JS returns
(`{ role, name, value, type, selector }`; the script always sets every
field, defaulting to the empty string). -/
structure IframeElemData where
  role : String
  name : String
  value : String
  ty : String
  selector : String
deriving DecidableEq

/-- One child frame as the discovery loop sees it: its URL and either
the evaluated element array or `none` when `frame.evaluate` raised
(the `except` arm logs and continues). -/
structure FrameModel where
  url : String
  elems : Option (List IframeElemData)
deriving DecidableEq

/-- Snapshot line for one discovered iframe element:
`f"  [{ref:>3}] {label}: {detail}"` with the `type=` and `value=`
suffixes. -/
def iframeLine (refC : Nat) (e : IframeElemData) : String :=
  let detail := if e.name ≠ "" then pyRepr e.name else "(no label)"
  let detail := if e.ty ≠ "" then detail ++ " type=" ++ e.ty else detail
  let detail :=
    if e.value ≠ "" ∧ e.role ∈ ["input", "textarea", "textbox", "searchbox"] then
      detail ++ " value=" ++ pyRepr (e.value.take 30)
    else detail
  "  [" ++ fmtRef3 refC ++ "] " ++ pyCapitalize e.role ++ ": " ++ detail

/-- Inner `for el_data in elements` loop of one frame: `break`s once
`ref >= start_ref + _MAX_ELEMENTS` (the cap is relative to the ref
counter the whole discovery started from), otherwise increments `ref`
and registers the element with `backend_node_id = 0`, the frame index
and the CSS selector. -/
def discElemLoop (startRef fi : Nat) :
    List IframeElemData → List (Nat × Elem) → List String → Nat →
    List (Nat × Elem) × List String × Nat
  | [], reg, lines, ref => (reg, lines, ref)
  | e :: rest, reg, lines, ref =>
    if ref ≥ startRef + maxElements then (reg, lines, ref)
    else
      let refC := ref + 1
      discElemLoop startRef fi rest
        (reg ++ [(refC, { backend_node_id := 0, role := e.role, name := e.name,
                          value := e.value, frame_index := fi,
                          selector := e.selector })])
        (lines ++ [iframeLine refC e]) refC

/-- The `for fi, frame in enumerate(page.frames)` loop: skips the main
frame (`fi == 0`), skips frames whose evaluation raised or returned no
elements, emits a frame header line and runs the element loop.  The
in-page script already truncates with `results.slice(0, 50)`, modelled
by `take 50`. -/
def discFrameLoop (startRef : Nat) :
    Nat → List FrameModel → List (Nat × Elem) → List String → Nat →
    List (Nat × Elem) × List String × Nat
  | _, [], reg, lines, ref => (reg, lines, ref)
  | fi, f :: rest, reg, lines, ref =>
    if fi = 0 then discFrameLoop startRef (fi + 1) rest reg lines ref
    else match f.elems with
    | none => discFrameLoop startRef (fi + 1) rest reg lines ref
    | some elems0 =>
      let elems := elems0.take 50
      if elems.isEmpty then discFrameLoop startRef (fi + 1) rest reg lines ref
      else
        let frameUrl := if f.url ≠ "" then f.url.take 60 else "(embedded)"
        let header := "\n── Frame [" ++ toString fi ++ "]: " ++ frameUrl ++ " ──"
        let (reg1, lines1, ref1) := discElemLoop startRef fi elems reg (lines ++ [header]) ref
        discFrameLoop startRef (fi + 1) rest reg1 lines1 ref1

/-- Function `_discover_iframe_elements(page, registry, start_ref)`: returns the
updated registry, the extra snapshot lines and the final ref counter. -/
def discoverIframeElements (frames : List FrameModel) (registry : List (Nat × Elem))
    (startRef : Nat) : List (Nat × Elem) × List String × Nat :=
  discFrameLoop startRef 0 frames registry [] startRef

/-! ## Full snapshot (`_take_snapshot`) -/

/-- The page as `_take_snapshot` observes it.  `titleOut` is the result
of `await page.title()` (caught locally, yielding `"(unknown)"`);
`axNodes` is the forest `_get_ax_tree` returned (that helper swallows
its own failures, returning `[]`); `tabUrls`/`activeTab` model
`page.context.pages` and which entry is the current page; `frames`
models `page.frames` with the main frame at index 0. -/
structure PageEnv where
  titleOut : Except String String
  url : String
  axNodes : List AXNode
  tabUrls : List String
  activeTab : Nat
  frames : List FrameModel

/-- The tab list block of the snapshot header (present only when more
than one page is open). -/
def tabInfo (tabUrls : List String) (activeTab : Nat) : String :=
  if tabUrls.length > 1 then
    "\nTabs:\n" ++
    String.intercalate "\n"
      (((List.range tabUrls.length).zip tabUrls).map (fun p =>
        "  " ++ (if p.1 = activeTab then "→" else " ") ++ " [" ++ toString p.1 ++ "] "
          ++ p.2.take 80)) ++ "\n"
  else ""

/-- The registry `_take_snapshot` stores into `_REGISTRY[id(page)]`:
the main-frame build, supplemented by iframe discovery when the page
has child frames (`len(page.frames) > 1`), numbering continued from
`interactive_count = len(registry)`. -/
def fullRegistry (pe : PageEnv) : List (Nat × Elem) :=
  let reg := (buildSnapshot pe.axNodes).1
  if pe.frames.length > 1 then
    (discoverIframeElements pe.frames reg reg.length).1
  else reg

/-- The iframe snapshot lines `_take_snapshot` collects (empty when the
page has a single frame). -/
def iframeSnapshotLines (pe : PageEnv) : List String :=
  if pe.frames.length > 1 then
    (discoverIframeElements pe.frames (buildSnapshot pe.axNodes).1
      (buildSnapshot pe.axNodes).1.length).2.1
  else []

/-- The snapshot string `_take_snapshot` returns:
`f"{header}\n\n{body}{iframe_section}{footer}"`, where the footer's
element count is the registry size after iframe discovery
(`fullRegistry`). -/
def takeSnapshot (pe : PageEnv) : String :=
  let title := match pe.titleOut with | .ok t => t | .error _ => "(unknown)"
  let body := (buildSnapshot pe.axNodes).2
  let header := "URL: " ++ pe.url ++ "\nTitle: " ++ title ++ tabInfo pe.tabUrls pe.activeTab
  let footer := "\n(" ++ toString (fullRegistry pe).length
                ++ " interactive elements. Use ref=N to interact.)"
  let iframeSection :=
    if iframeSnapshotLines pe ≠ [] then
      "\n" ++ String.intercalate "\n" (iframeSnapshotLines pe)
    else ""
  header ++ "\n\n" ++ body ++ iframeSection ++ footer

/-! ## Waits (`_smart_wait`, `_wait_for_navigation_settle`) -/

/-- Outcome of one awaited Playwright primitive: normal return, a raised
`PlaywrightTimeout`, or any other raised exception. -/
inductive POutcome where
  | ok
  | timeout (msg : String)
  | err (msg : String)
deriving DecidableEq

/-- Outcomes of the two `wait_for_load_state` calls `_smart_wait` can
issue. -/
structure WaitEnv where
  networkIdle : POutcome
  domContent : POutcome
deriving DecidableEq

/-- Steps `_smart_wait` performs, recorded for the settlement claims. -/
inductive WaitStep where
  | netIdle
  | domLoaded
  | sleep03
deriving DecidableEq

/-- Function `_smart_wait(page, timeout_ms)`: tries the network-idle wait; on
`PlaywrightTimeout` falls back to a DOM-content-loaded wait with a
1000 ms timeout whose own `PlaywrightTimeout` is swallowed; every
non-raising path ends with the fixed `asyncio.sleep(0.3)`.  Exceptions
other than `PlaywrightTimeout` are not caught and propagate. -/
def smartWait (w : WaitEnv) : Except String (List WaitStep) :=
  match w.networkIdle with
  | .ok => .ok [.netIdle, .sleep03]
  | .err m => .error m
  | .timeout _ =>
    match w.domContent with
    | .ok => .ok [.netIdle, .domLoaded, .sleep03]
    | .timeout _ => .ok [.netIdle, .domLoaded, .sleep03]
    | .err m => .error m

/-- Environment of `_wait_for_navigation_settle`: the 5000 ms
DOM-content-loaded wait (its `PlaywrightTimeout` swallowed) followed by
`_smart_wait(page, 3000)`. -/
structure NavSettleEnv where
  domContent : POutcome
  wait : WaitEnv
deriving DecidableEq

/-- Function `_wait_for_navigation_settle(page)`. -/
def waitForNavigationSettle (e : NavSettleEnv) : Except String (List WaitStep) :=
  match e.domContent with
  | .err m => .error m
  | _ => smartWait e.wait

/-! ## High-level action handlers (`_do_click`, `_do_fill`, ...)

Each handler returns the status string the source returns (wrapped in
`Except`, `.error` when a non-caught exception would propagate) together
with the trace of protocol calls it performed.  The environment record
supplies the outcome of each effectful primitive. -/

/-- Outcomes of the effectful primitives a handler may consult. -/
structure InteractEnv where
  box : Option (Int × Int)
  focusOk : Bool
  jsClickOk : Bool
  frameOp : Except String Unit
  resolveObj : Option String
  runtimeCall : Except String Unit
  fileExists : Bool
  setFiles : Except String Unit
  urlChanged : Bool
  postNav : NavSettleEnv
  postWait : WaitEnv

/-- The long ref-miss message of `_do_click` / `_do_fill` / `_do_type`. -/
def refNotFoundLong (ref : Nat) : String :=
  "Error: ref [" ++ toString ref ++ "] not found. Run snapshot to refresh."

/-- The short ref-miss message of `_do_hover` / `_do_select_option` /
`_do_upload`. -/
def refNotFoundShort (ref : Nat) : String :=
  "Error: ref [" ++ toString ref ++ "] not found."

/-- Handler `_do_click(page, cdp, ref)`: registry lookup, iframe locator click
or CDP click with JS-click and focus+Enter fallbacks, then the
post-click waits (navigation settle on a URL change, else a smart
wait). -/
def doClick (reg : List (Nat × Elem)) (ref : Nat) (env : InteractEnv) :
    Except String String × List CdpEvent :=
  match reg.lookup ref with
  | none => (.ok (refNotFoundLong ref), [])
  | some elem =>
    let proceed := fun (evts : List CdpEvent) (method : String) =>
      let waited :=
        if env.urlChanged then waitForNavigationSettle env.postNav
        else smartWait env.postWait
      match waited with
      | .error m => ((.error m : Except String String), evts)
      | .ok _ =>
        (.ok ("Clicked [" ++ toString ref ++ "] " ++ elem.role ++ ": "
              ++ pyRepr elem.name ++ " (" ++ method ++ ")"), evts)
    if elem.frame_index > 0 ∧ elem.selector ≠ "" then
      match env.frameOp with
      | .error e =>
        (.ok ("Error: could not click [" ++ toString ref ++ "] in iframe ("
              ++ elem.role ++ ": " ++ elem.name ++ "): " ++ e), [])
      | .ok _ => proceed [.frameClick elem.frame_index elem.selector] "frame-click"
    else
      match env.box with
      | some (cx, cy) => proceed (cdpClickEvents cx cy) "cdp-click"
      | none =>
        if env.jsClickOk then proceed [.jsClick elem.backend_node_id] "js-click"
        else if env.focusOk then
          proceed (.domFocus elem.backend_node_id :: cdpKeyEvents "Enter") "focus-enter"
        else
          (.ok ("Error: could not click [" ++ toString ref ++ "] ("
                ++ elem.role ++ ": " ++ elem.name ++ ")"), [])

/-- Handler `_do_fill(page, cdp, ref, text)`: iframe locator click+fill, or CDP
click-to-focus (protocol focus fallback), then select-all
(`Control+a`), `Delete`, and `Input.insertText`. -/
def doFill (reg : List (Nat × Elem)) (ref : Nat) (text : String) (env : InteractEnv) :
    Except String String × List CdpEvent :=
  match reg.lookup ref with
  | none => (.ok (refNotFoundLong ref), [])
  | some elem =>
    if elem.frame_index > 0 ∧ elem.selector ≠ "" then
      match env.frameOp with
      | .ok _ =>
        (.ok ("Filled [" ++ toString ref ++ "] " ++ elem.role ++ ": "
              ++ pyRepr elem.name ++ " with " ++ pyRepr text),
         [.frameClick elem.frame_index elem.selector,
          .frameFill elem.frame_index elem.selector text])
      | .error e =>
        (.ok ("Error: could not fill [" ++ toString ref ++ "] in iframe: " ++ e), [])
    else
      let focusEvts :=
        match env.box with
        | some (cx, cy) => some (cdpClickEvents cx cy)
        | none => if env.focusOk then some [CdpEvent.domFocus elem.backend_node_id] else none
      match focusEvts with
      | none =>
        (.ok ("Error: could not focus [" ++ toString ref ++ "] ("
              ++ elem.role ++ ": " ++ elem.name ++ ")"), [])
      | some fe =>
        (.ok ("Filled [" ++ toString ref ++ "] " ++ elem.role ++ ": "
              ++ pyRepr elem.name ++ " with " ++ pyRepr text),
         fe ++ cdpKeyEvents "Control+a" ++ cdpKeyEvents "Delete" ++ [.insertText text])

/-- Handler `_do_type(page, cdp, ref, text)`: same focusing step as `_do_fill`
but inserts the text with no clearing keystrokes. -/
def doType (reg : List (Nat × Elem)) (ref : Nat) (text : String) (env : InteractEnv) :
    Except String String × List CdpEvent :=
  match reg.lookup ref with
  | none => (.ok (refNotFoundLong ref), [])
  | some elem =>
    if elem.frame_index > 0 ∧ elem.selector ≠ "" then
      match env.frameOp with
      | .ok _ =>
        (.ok ("Typed " ++ pyRepr text ++ " into [" ++ toString ref ++ "] "
              ++ elem.role ++ ": " ++ pyRepr elem.name),
         [.frameClick elem.frame_index elem.selector,
          .frameType elem.frame_index elem.selector text])
      | .error e =>
        (.ok ("Error: could not type into [" ++ toString ref ++ "] in iframe: " ++ e), [])
    else
      let focusEvts :=
        match env.box with
        | some (cx, cy) => some (cdpClickEvents cx cy)
        | none => if env.focusOk then some [CdpEvent.domFocus elem.backend_node_id] else none
      match focusEvts with
      | none => (.ok ("Error: could not focus [" ++ toString ref ++ "]"), [])
      | some fe =>
        (.ok ("Typed " ++ pyRepr text ++ " into [" ++ toString ref ++ "] "
              ++ elem.role ++ ": " ++ pyRepr elem.name),
         fe ++ [.insertText text])

/-- Handler `_do_hover(page, cdp, ref)`. -/
def doHover (reg : List (Nat × Elem)) (ref : Nat) (env : InteractEnv) :
    Except String String × List CdpEvent :=
  match reg.lookup ref with
  | none => (.ok (refNotFoundShort ref), [])
  | some elem =>
    if elem.frame_index > 0 ∧ elem.selector ≠ "" then
      match env.frameOp with
      | .ok _ =>
        (.ok ("Hovered over [" ++ toString ref ++ "] " ++ elem.role ++ ": "
              ++ pyRepr elem.name),
         [.frameHover elem.frame_index elem.selector])
      | .error e =>
        (.ok ("Error: could not hover [" ++ toString ref ++ "] in iframe: " ++ e), [])
    else
      match env.box with
      | none =>
        (.ok ("Error: could not get coordinates for [" ++ toString ref ++ "]"), [])
      | some (cx, cy) =>
        (.ok ("Hovering over [" ++ toString ref ++ "] " ++ elem.role ++ ": "
              ++ pyRepr elem.name),
         [.mouseMoved cx cy])

/-- Handler `_do_select_option(cdp, page, ref, value, text)`: resolves the node
and runs a value-setting (or option-matching) JS function; empty-string
arguments are falsy in the source's `if value:` / `elif text:` tests.
The `Runtime.callFunctionOn` call is recorded only when it succeeds. -/
def doSelectOption (reg : List (Nat × Elem)) (ref : Nat)
    (value text : Option String) (env : InteractEnv) :
    Except String String × List CdpEvent :=
  match reg.lookup ref with
  | none => (.ok (refNotFoundShort ref), [])
  | some elem =>
    match env.resolveObj with
    | none => (.ok ("Error: could not resolve [" ++ toString ref ++ "]"), [])
    | some _ =>
      let truthy := fun (o : Option String) => o.getD "" ≠ ""
      if truthy value ∨ truthy text then
        match env.runtimeCall with
        | .ok _ =>
          (.ok ("Selected option in [" ++ toString ref ++ "]"),
           [.runtimeCallFn elem.backend_node_id])
        | .error e => (.ok ("select_option error: " ++ e), [])
      else (.ok "Error: select_option needs value=... or text=...", [])

/-- Handler `_do_upload(cdp, page, ref, filepath)`: registry lookup, then the
`os.path.isfile` precondition, then `DOM.setFileInputFiles`. -/
def doUpload (reg : List (Nat × Elem)) (ref : Nat) (filepath : String)
    (env : InteractEnv) : Except String String × List CdpEvent :=
  match reg.lookup ref with
  | none => (.ok (refNotFoundShort ref), [])
  | some elem =>
    if ¬ env.fileExists then
      (.ok ("Error: file not found: " ++ filepath), [])
    else
      match env.setFiles with
      | .ok _ =>
        (.ok ("Uploaded " ++ filepath ++ " to [" ++ toString ref ++ "]"),
         [.setFileInputFiles filepath elem.backend_node_id])
      | .error e => (.ok ("upload error: " ++ e), [])

/-! ## A text-input model, to state what the fill/type traces do

This is not code of the repository: it is the standard behaviour of a
focused browser text field, used to express the spec's postcondition
("after fill the field holds exactly the given text; after type the
prior content is preserved with the text appended"). -/

/-- A text field: its content, and whether all of it is selected. -/
structure FieldState where
  content : String
  selAll : Bool
deriving DecidableEq

/-- Effect of one protocol event on a focused text field: a mouse press
or a programmatic focus places the caret (clearing any selection),
`Control+a` selects all, `Delete` removes the selection, and
`Input.insertText` replaces the selection or inserts at the caret. -/
def applyEvent (s : FieldState) : CdpEvent → FieldState
  | .mousePressed _ _ => { s with selAll := false }
  | .domFocus _ => { s with selAll := false }
  | .keyDown p =>
    if p.vk = 65 ∧ p.mods = 2 then { s with selAll := true }
    else if p.vk = 46 ∧ p.mods = 0 then
      (if s.selAll then { content := "", selAll := false } else s)
    else s
  | .insertText t =>
    if s.selAll then { content := t, selAll := false }
    else { content := s.content ++ t, selAll := false }
  | _ => s

/-- Run a full event trace over a text field. -/
def applyEvents (s : FieldState) (evts : List CdpEvent) : FieldState :=
  evts.foldl applyEvent s

/-! ## The dispatcher (`_dispatch`) and the tool entry point (`browser_act`) -/

/-- The keyword parameters of `browser_act`, with the source's defaults.
`browser_act` forwards every parameter to `_dispatch`, so each
`kw.get(...)` there sees the key as present; explicit `None` arguments
therefore reach the branches.  Refs are modelled as `Nat`: registry keys
are positive, and a negative ref behaves exactly like any other absent
key (the `dict.get` miss path). -/
structure Params where
  url : Option String := none
  ref : Option Nat := none
  text : Option String := none
  value : Option String := none
  filepath : Option String := none
  direction : Option String := some "down"
  amount : Option Int := some 600
  duration : Option Int := some 2
  key : Option String := none
  index : Option Int := none
  selector : Option String := none

/-- The mutable `BrowserSession` class state the tab actions touch:
which page `_page` refers to, the identity of the current `_cdp`
session, and how many protocol sessions have been created (so "no new
protocol session" is `cdpCount` unchanged). -/
structure SessionSt where
  pageIdx : Nat
  cdpId : Nat
  cdpCount : Nat
deriving DecidableEq

/-- Python `f"{x}"` on an `Optional[str]`. -/
def pyShow : Option String → String
  | some s => s
  | none => "None"

/-- Everything effectful `_dispatch` consults, one field per primitive
outcome.  `post` is the page as the branch's final `_take_snapshot`
observes it; `registry` is `_REGISTRY[id(page)]` entering the action;
`ctx` is `BrowserSession._context` (`none` when absent) carrying its
pages' URLs. -/
structure DispatchEnv where
  post : PageEnv
  registry : List (Nat × Elem)
  ienv : InteractEnv
  pageText : String
  gotoOut : POutcome
  navWait : WaitEnv
  waitForOut : POutcome
  screenshotOut : Except String Unit
  shotPath : String
  goBackOut : POutcome
  backWait : WaitEnv
  goFwdOut : POutcome
  fwdWait : WaitEnv
  ctx : Option (List String)
  newSession : Except String Unit
  newTabGoto : POutcome
  newTabWait : WaitEnv
  closeOk : Except String Unit
  remaining : List String

/-! The dispatcher's branch structure, one Lean definition per action
block of `_dispatch`, in source order.  `.error` marks an exception
escaping the dispatcher (to be caught by `browser_act`); the session
state is threaded to capture the tab actions' assignments. -/

/-- The `navigate` block: missing/empty url check, `page.goto` inside a
`try` that swallows `PlaywrightTimeout` and converts any other
exception (from `goto` or the smart wait) into a `Navigation error`
string, then snapshot. -/
def navigateBranch (p : Params) (env : DispatchEnv) (st : SessionSt) :
    Except String String × SessionSt :=
  match p.url with
  | none => (.ok "Error: navigate needs url=...", st)
  | some u =>
    if u = "" then (.ok "Error: navigate needs url=...", st)
    else
      match env.gotoOut with
      | .err m => (.ok ("Navigation error: " ++ m), st)
      | .timeout _ => (.ok ("Navigated to " ++ u ++ "\n\n" ++ takeSnapshot env.post), st)
      | .ok =>
        match smartWait env.navWait with
        | .error m => (.ok ("Navigation error: " ++ m), st)
        | .ok _ => (.ok ("Navigated to " ++ u ++ "\n\n" ++ takeSnapshot env.post), st)

/-- The `snapshot` block. -/
def snapshotBranch (env : DispatchEnv) (st : SessionSt) :
    Except String String × SessionSt :=
  (.ok (takeSnapshot env.post), st)

/-- The `get_text` block: `page.title()` is awaited bare, so its
exceptions propagate. -/
def getTextBranch (env : DispatchEnv) (st : SessionSt) :
    Except String String × SessionSt :=
  match env.post.titleOut with
  | .error m => (.error m, st)
  | .ok t =>
    (.ok ("URL: " ++ env.post.url ++ "\nTitle: " ++ t ++ "\n\n" ++ env.pageText), st)

/-- The `click` block. -/
def clickBranch (p : Params) (env : DispatchEnv) (st : SessionSt) :
    Except String String × SessionSt :=
  match p.ref with
  | none => (.ok "Error: click needs ref=N", st)
  | some r =>
    match (doClick env.registry r env.ienv).1 with
    | .error m => (.error m, st)
    | .ok msg => (.ok (msg ++ "\n\n" ++ takeSnapshot env.post), st)

/-- The `fill` block. -/
def fillBranch (p : Params) (env : DispatchEnv) (st : SessionSt) :
    Except String String × SessionSt :=
  match p.ref with
  | none => (.ok "Error: fill needs ref=N", st)
  | some r =>
    match p.text with
    | none => (.ok "Error: fill needs text=...", st)
    | some t =>
      match (doFill env.registry r t env.ienv).1 with
      | .error m => (.error m, st)
      | .ok msg => (.ok (msg ++ "\n\n" ++ takeSnapshot env.post), st)

/-- The `type` block. -/
def typeBranch (p : Params) (env : DispatchEnv) (st : SessionSt) :
    Except String String × SessionSt :=
  match p.ref with
  | none => (.ok "Error: type needs ref=N", st)
  | some r =>
    match p.text with
    | none => (.ok "Error: type needs text=...", st)
    | some t =>
      match (doType env.registry r t env.ienv).1 with
      | .error m => (.error m, st)
      | .ok msg => (.ok (msg ++ "\n\n" ++ takeSnapshot env.post), st)

/-- The `press` block (`if not key:` treats an empty string as
missing). -/
def pressBranch (p : Params) (env : DispatchEnv) (st : SessionSt) :
    Except String String × SessionSt :=
  match p.key with
  | none => (.ok "Error: press needs key=...", st)
  | some k =>
    if k = "" then (.ok "Error: press needs key=...", st)
    else (.ok ("Pressed " ++ k ++ "\n\n" ++ takeSnapshot env.post), st)

/-- The `hover` block. -/
def hoverBranch (p : Params) (env : DispatchEnv) (st : SessionSt) :
    Except String String × SessionSt :=
  match p.ref with
  | none => (.ok "Error: hover needs ref=N", st)
  | some r =>
    match (doHover env.registry r env.ienv).1 with
    | .error m => (.error m, st)
    | .ok msg => (.ok (msg ++ "\n\n" ++ takeSnapshot env.post), st)

/-- The `select_option` block. -/
def selectOptionBranch (p : Params) (env : DispatchEnv) (st : SessionSt) :
    Except String String × SessionSt :=
  match p.ref with
  | none => (.ok "Error: select_option needs ref=N", st)
  | some r =>
    match (doSelectOption env.registry r p.value p.text env.ienv).1 with
    | .error m => (.error m, st)
    | .ok msg => (.ok (msg ++ "\n\n" ++ takeSnapshot env.post), st)

/-- The `upload_file` block (`if not filepath:` treats an empty string
as missing). -/
def uploadFileBranch (p : Params) (env : DispatchEnv) (st : SessionSt) :
    Except String String × SessionSt :=
  match p.ref with
  | none => (.ok "Error: upload_file needs ref=N", st)
  | some r =>
    match p.filepath with
    | none => (.ok "Error: upload_file needs filepath=...", st)
    | some fp =>
      if fp = "" then (.ok "Error: upload_file needs filepath=...", st)
      else
        match (doUpload env.registry r fp env.ienv).1 with
        | .error m => (.error m, st)
        | .ok msg => (.ok (msg ++ "\n\n" ++ takeSnapshot env.post), st)

/-- The `scroll` block: an explicit `amount=None` makes the arithmetic
or `mouse.wheel` call raise a `TypeError`, which propagates; otherwise
the result string interpolates the raw `direction` value (`None`
prints as `"None"`). -/
def scrollBranch (p : Params) (env : DispatchEnv) (st : SessionSt) :
    Except String String × SessionSt :=
  match p.amount with
  | none => (.error "TypeError: amount is None", st)
  | some amt =>
    (.ok ("Scrolled " ++ pyShow p.direction ++ " " ++ toString amt ++ "px\n\n"
          ++ takeSnapshot env.post), st)

/-- The `wait` block: `asyncio.sleep(None)` raises a `TypeError`. -/
def waitBranch (p : Params) (env : DispatchEnv) (st : SessionSt) :
    Except String String × SessionSt :=
  match p.duration with
  | none => (.error "TypeError: duration is None", st)
  | some d => (.ok ("Waited " ++ toString d ++ "s\n\n" ++ takeSnapshot env.post), st)

/-- The `wait_for` block: whichever wait runs, only its
`PlaywrightTimeout` is swallowed. -/
def waitForBranch (env : DispatchEnv) (st : SessionSt) :
    Except String String × SessionSt :=
  match env.waitForOut with
  | .err m => (.error m, st)
  | _ => (.ok ("Wait complete\n\n" ++ takeSnapshot env.post), st)

/-- The `screenshot` block: no snapshot is appended. -/
def screenshotBranch (env : DispatchEnv) (st : SessionSt) :
    Except String String × SessionSt :=
  match env.screenshotOut with
  | .error m => (.error m, st)
  | .ok _ => (.ok ("Screenshot saved: " ++ env.shotPath), st)

/-- The `back` block: `page.go_back` is awaited bare, so even its
`PlaywrightTimeout` propagates. -/
def backBranch (env : DispatchEnv) (st : SessionSt) :
    Except String String × SessionSt :=
  match env.goBackOut with
  | .ok =>
    match smartWait env.backWait with
    | .error m => (.error m, st)
    | .ok _ => (.ok ("Went back\n\n" ++ takeSnapshot env.post), st)
  | .timeout m => (.error m, st)
  | .err m => (.error m, st)

/-- The `forward` block, like `back`. -/
def forwardBranch (env : DispatchEnv) (st : SessionSt) :
    Except String String × SessionSt :=
  match env.goFwdOut with
  | .ok =>
    match smartWait env.fwdWait with
    | .error m => (.error m, st)
    | .ok _ => (.ok ("Went forward\n\n" ++ takeSnapshot env.post), st)
  | .timeout m => (.error m, st)
  | .err m => (.error m, st)

/-- The `new_tab` block: url and context checks, page and protocol
session creation, then a `try` around `goto` and the smart wait that
swallows only `PlaywrightTimeout`. -/
def newTabBranch (p : Params) (env : DispatchEnv) (st : SessionSt) :
    Except String String × SessionSt :=
  match p.url with
  | none => (.ok "Error: new_tab needs url=...", st)
  | some u =>
    if u = "" then (.ok "Error: new_tab needs url=...", st)
    else
      match env.ctx with
      | none => (.ok "Error: no browser context", st)
      | some pages =>
        match env.newSession with
        | .error m => (.error m, st)
        | .ok _ =>
          let st2 : SessionSt :=
            { pageIdx := pages.length, cdpId := st.cdpCount,
              cdpCount := st.cdpCount + 1 }
          match env.newTabGoto with
          | .err m => (.error m, st2)
          | .timeout _ => (.ok ("Opened new tab: " ++ u ++ "\n\n" ++ takeSnapshot env.post), st2)
          | .ok =>
            match smartWait env.newTabWait with
            | .error m => (.error m, st2)
            | .ok _ => (.ok ("Opened new tab: " ++ u ++ "\n\n" ++ takeSnapshot env.post), st2)

/-- The `switch_tab` block: `idx = kw.get("index", 0) or 0` (a `None`
or `0` index becomes 0), the bounds check before any assignment, then
`_page` assignment, protocol session creation and snapshot. -/
def switchTabBranch (p : Params) (env : DispatchEnv) (st : SessionSt) :
    Except String String × SessionSt :=
  match env.ctx with
  | none => (.ok "Error: no browser context", st)
  | some pages =>
    let idx : Int := p.index.getD 0
    if idx < 0 ∨ idx ≥ (pages.length : Int) then
      (.ok ("Error: tab index " ++ toString idx ++ " out of range (0–"
            ++ toString ((pages.length : Int) - 1) ++ ")"), st)
    else
      match env.newSession with
      | .error m => (.error m, { st with pageIdx := idx.toNat })
      | .ok _ =>
        (.ok ("Switched to tab [" ++ toString idx ++ "]\n\n" ++ takeSnapshot env.post),
         { pageIdx := idx.toNat, cdpId := st.cdpCount,
           cdpCount := st.cdpCount + 1 })

/-- The `close_tab` block. -/
def closeTabBranch (env : DispatchEnv) (st : SessionSt) :
    Except String String × SessionSt :=
  match env.ctx with
  | none => (.ok "Error: no browser context", st)
  | some _ =>
    match env.closeOk with
    | .error m => (.error m, st)
    | .ok _ =>
      match env.remaining with
      | [] => (.ok "Tab closed. No remaining tabs.", st)
      | rs =>
        match env.newSession with
        | .error m => (.error m, { st with pageIdx := rs.length - 1 })
        | .ok _ =>
          (.ok ("Tab closed\n\n" ++ takeSnapshot env.post),
           { pageIdx := rs.length - 1, cdpId := st.cdpCount,
             cdpCount := st.cdpCount + 1 })

/-- The fall-through unknown-action error listing the valid
vocabulary. -/
def unknownBranch (action : String) (st : SessionSt) :
    Except String String × SessionSt :=
  (.ok ("Unknown action: \x27" ++ action ++ "\x27. Valid: navigate, snapshot, "
        ++ "get_text, click, fill, type, press, hover, select_option, "
        ++ "upload_file, scroll, wait, wait_for, screenshot, back, forward, "
        ++ "new_tab, switch_tab, close_tab, close"), st)

/-- Function `_dispatch(action, page, cdp, **kw)`: route by action name, in
source order. -/
def dispatch (action : String) (p : Params) (env : DispatchEnv) (st : SessionSt) :
    Except String String × SessionSt :=
  if action = "navigate" then navigateBranch p env st
  else if action = "snapshot" then snapshotBranch env st
  else if action = "get_text" then getTextBranch env st
  else if action = "click" then clickBranch p env st
  else if action = "fill" then fillBranch p env st
  else if action = "type" then typeBranch p env st
  else if action = "press" then pressBranch p env st
  else if action = "hover" then hoverBranch p env st
  else if action = "select_option" then selectOptionBranch p env st
  else if action = "upload_file" then uploadFileBranch p env st
  else if action = "scroll" then scrollBranch p env st
  else if action = "wait" then waitBranch p env st
  else if action = "wait_for" then waitForBranch env st
  else if action = "screenshot" then screenshotBranch env st
  else if action = "back" then backBranch env st
  else if action = "forward" then forwardBranch env st
  else if action = "new_tab" then newTabBranch p env st
  else if action = "switch_tab" then switchTabBranch p env st
  else if action = "close_tab" then closeTabBranch env st
  else unknownBranch action st

/-- Environment of `browser_act` itself: the outcome of
`BrowserSession.get_page()` (auto-launch) plus the dispatcher
environment.  `tb` is the `traceback.format_exc()` text appended to the
launch-failure message. -/
structure ActEnv where
  launch : Except String Unit
  tb : String
  denv : DispatchEnv

/-- Python `str.lower()` for the ASCII action names this tool
receives. -/
def pyLower (s : String) : String := String.mk (s.data.map Char.toLower)

/-- Python `str.strip()`: leading and trailing whitespace removed. -/
def pyStrip (s : String) : String :=
  String.mk (((s.data.dropWhile Char.isWhitespace).reverse.dropWhile
    Char.isWhitespace).reverse)

/-- Tool entry `browser_act(action, ...)`: lower-cases and strips the action,
handles `close` before session acquisition, dispatches, and on an
exception escaping `_dispatch` recovers with an error string that
carries a fresh snapshot.  (The recovery snapshot's own `try` cannot
fail in this model because every fallible sub-call of `_take_snapshot`
is caught inside it in the source, so the bare fallback string is not
modelled.) -/
def browserAct (action : String) (p : Params) (env : ActEnv) (st : SessionSt) :
    String × SessionSt :=
  let a := pyStrip (pyLower action)
  if a = "close" then ("Browser closed.", st)
  else
    match env.launch with
    | .error e => ("Browser launch failed: " ++ e ++ "\n" ++ env.tb, st)
    | .ok _ =>
      match dispatch a p env.denv st with
      | (.ok s, st2) => (s, st2)
      | (.error e, st2) =>
        ("Error during \x27" ++ a ++ "\x27: " ++ e ++ "\n\nCurrent page state:\n"
          ++ takeSnapshot env.denv.post, st2)

/-! ## Shared concrete environments for witnesses -/

/-- Waits that settle immediately. -/
def benignWait : WaitEnv := { networkIdle := .ok, domContent := .ok }

/-- An interaction environment with every primitive in its least
eventful outcome. -/
def benignInteract : InteractEnv :=
  { box := none, focusOk := false, jsClickOk := false, frameOp := .ok (),
    resolveObj := none, runtimeCall := .ok (), fileExists := false,
    setFiles := .ok (), urlChanged := false,
    postNav := { domContent := .ok, wait := benignWait }, postWait := benignWait }

/-- A blank page. -/
def emptyPage : PageEnv :=
  { titleOut := .ok "", url := "", axNodes := [], tabUrls := [], activeTab := 0,
    frames := [] }

/-- A dispatcher environment over the blank page with every effectful
outcome benign. -/
def benignEnv : DispatchEnv :=
  { post := emptyPage, registry := [], ienv := benignInteract, pageText := "",
    gotoOut := .ok, navWait := benignWait, waitForOut := .ok,
    screenshotOut := .ok (), shotPath := "", goBackOut := .ok,
    backWait := benignWait, goFwdOut := .ok, fwdWait := benignWait,
    ctx := none, newSession := .ok (), newTabGoto := .ok,
    newTabWait := benignWait, closeOk := .ok (), remaining := [] }

/-- A `browser_act` environment whose launch succeeds. -/
def benignActEnv : ActEnv := { launch := .ok (), tb := "", denv := benignEnv }

/-! ## C7 — the key-press primitive -/

/-- C7: the key-press primitive always sends exactly one `keyDown`
followed by one `keyUp` with identical parameters; every table entry
supplies its fixed virtual-key code and modifier bitmask (e.g.
`Control+a` → code 65 with modifiers 2, `Shift+Tab` → modifiers 8); a
single-character key missing from the table is dispatched with its
literal code point (`ord`) and modifiers 0. -/
theorem c7_key_primitive (k : String) :
    cdpKeyEvents k = [.keyDown (cdpKeyParams k), .keyUp (cdpKeyParams k)]
    ∧ (∀ n c m, keyMap k = some (n, c, m) →
        (cdpKeyParams k).key = n ∧ (cdpKeyParams k).vk = c ∧ (cdpKeyParams k).mods = m)
    ∧ (keyMap k = none → k.length = 1 →
        (cdpKeyParams k).vk = (k.get 0).toNat ∧ (cdpKeyParams k).mods = 0)
    ∧ (cdpKeyParams "Control+a").vk = 65 ∧ (cdpKeyParams "Control+a").mods = 2
    ∧ (cdpKeyParams "Shift+Tab").mods = 8 := by
  refine ⟨rfl, ?_, ?_, rfl, rfl, rfl⟩
  · intro n c m h
    simp [cdpKeyParams, h]
  · intro h h1
    simp [cdpKeyParams, h, h1]

/-- Witness for C7 at the unmapped single-character key `"q"`. -/
theorem c7_key_primitive_witness :
    (cdpKeyParams "q").vk = ("q".get 0).toNat ∧ (cdpKeyParams "q").mods = 0 :=
  (c7_key_primitive "q").2.2.1 rfl rfl

/-! ## C8 — the smart wait (corrected)

The source catches only `PlaywrightTimeout` around its two
`wait_for_load_state` calls; any other exception raised by a wait
primitive (for example a closed page) escapes `_smart_wait`, so the
claim's "whatever exception the underlying wait primitives raise, the
function returns normally" fails. -/

/-- C8, counterexample: when the network-idle wait raises a
non-`PlaywrightTimeout` exception, `_smart_wait` propagates it instead
of returning normally. -/
theorem c8_counterexample :
    smartWait { networkIdle := .err "Target page, context or browser has been closed",
                domContent := .ok }
      = .error "Target page, context or browser has been closed" := rfl

/-- C8 amended: whenever the underlying wait primitives either succeed
or raise only `PlaywrightTimeout`, `_smart_wait` returns normally: a
network-idle timeout falls back to the DOM-content-loaded wait, whose
own timeout is also swallowed, and every returning path ends with the
fixed short sleep.  Exceptions other than the timeout propagate. -/
theorem c8_amended (w : WaitEnv)
    (hn : w.networkIdle = .ok ∨ ∃ m, w.networkIdle = .timeout m)
    (hd : w.domContent = .ok ∨ ∃ m, w.domContent = .timeout m) :
    ∃ tr, smartWait w = .ok tr ∧ tr.getLast? = some .sleep03 ∧
      ((∃ m, w.networkIdle = .timeout m) → WaitStep.domLoaded ∈ tr) := by
  rcases hn with hn | ⟨m, hn⟩
  · exact ⟨[.netIdle, .sleep03], by simp [smartWait, hn],
      rfl, by rintro ⟨m, hm⟩; rw [hn] at hm; cases hm⟩
  · rcases hd with hd | ⟨m2, hd⟩ <;>
      exact ⟨[.netIdle, .domLoaded, .sleep03], by simp [smartWait, hn, hd], rfl,
        fun _ => by simp⟩

/-- Witness for C8 at both waits timing out. -/
theorem c8_amended_witness :
    ∃ tr, smartWait { networkIdle := .timeout "Timeout 4000ms exceeded.",
                      domContent := .timeout "Timeout 1000ms exceeded." } = .ok tr ∧
      tr.getLast? = some .sleep03 ∧
      ((∃ m, (POutcome.timeout "Timeout 4000ms exceeded.") = POutcome.timeout m) →
        WaitStep.domLoaded ∈ tr) :=
  c8_amended _ (Or.inr ⟨_, rfl⟩) (Or.inr ⟨_, rfl⟩)

/-! ## C9 — upload precondition -/

/-- C9: an `upload_file` whose ref resolves but whose filepath is not an
existing regular file returns the explicit file-not-found error string
and performs no protocol call at all (in particular no
`DOM.setFileInputFiles`), leaving page and registry untouched. -/
theorem c9_upload_missing_file (reg : List (Nat × Elem)) (ref : Nat) (fp : String)
    (env : InteractEnv) (elem : Elem)
    (h : reg.lookup ref = some elem) (hf : env.fileExists = false) :
    doUpload reg ref fp env = (.ok ("Error: file not found: " ++ fp), []) := by
  simp [doUpload, h, hf]

/-- Witness for C9: ref 1 resolves in a one-element registry, the file
is absent, and the handler returns the error with an empty trace. -/
theorem c9_upload_missing_file_witness :
    doUpload [(1, { backend_node_id := 5, role := "button", name := "Upload" })] 1
        "/tmp/missing.pdf" benignInteract
      = (.ok ("Error: file not found: " ++ "/tmp/missing.pdf"), []) :=
  c9_upload_missing_file _ _ _ _ _ rfl rfl

/-! ## Registry key structure

`RegShape reg n` says the registry's keys, in insertion order, are
exactly `1, 2, ..., n`.  Every phase of snapshot building preserves it.
-/

/-- The registry keys are the contiguous block `1..n` in order. -/
def RegShape (reg : List (Nat × Elem)) (n : Nat) : Prop :=
  reg.map Prod.fst = List.range' 1 n

theorem regShape_nil : RegShape [] 0 := rfl

theorem regShape_append {reg : List (Nat × Elem)} {n : Nat} (elem : Elem)
    (h : RegShape reg n) : RegShape (reg ++ [(n + 1, elem)]) (n + 1) := by
  unfold RegShape at *
  rw [List.map_append, h, List.range'_concat]
  simp [Nat.add_comm]

mutual

theorem walk_shape (n : AXNode) (d : Nat) (s : BuildState)
    (h : RegShape s.registry s.refCounter) :
    RegShape (walk n d s).registry (walk n d s).refCounter := by
  rw [walk.eq_def]
  split
  · exact h
  split
  · exact h
  split
  dsimp only
  split
  · exact walkList_shape _ _ _ h
  split
  · split
    · exact walkList_shape _ _ _ h
    · exact regShape_append _ h
  · refine walkList_shape _ _ _ ?_
    split
    · exact h
    · exact h

theorem walkList_shape (ns : List AXNode) (d : Nat) (s : BuildState)
    (h : RegShape s.registry s.refCounter) :
    RegShape (walkList ns d s).registry (walkList ns d s).refCounter := by
  match ns with
  | [] => rw [walkList.eq_def]; exact h
  | n :: rest =>
    rw [walkList.eq_def]
    exact walkList_shape rest d _ (walk_shape n d s h)

end

theorem fallbackScan_shape (ns : List AXNode) (s : BuildState)
    (h : RegShape s.registry s.refCounter) :
    RegShape (fallbackScan ns s).registry (fallbackScan ns s).refCounter := by
  induction ns generalizing s with
  | nil => rw [fallbackScan.eq_def]; exact h
  | cons n rest ih =>
    rw [fallbackScan.eq_def]
    dsimp only
    split
    · exact h
    split
    split
    · exact ih _ h
    split
    · split
      · exact ih _ h
      · exact ih _ (regShape_append _ h)
    split
    · exact ih _ h
    · exact ih _ h

theorem discElemLoop_shape (startRef fi : Nat) (es : List IframeElemData)
    (reg : List (Nat × Elem)) (lines : List String) (ref : Nat)
    (h : RegShape reg ref) :
    RegShape (discElemLoop startRef fi es reg lines ref).1
      (discElemLoop startRef fi es reg lines ref).2.2 := by
  induction es generalizing reg lines ref with
  | nil => rw [discElemLoop.eq_def]; exact h
  | cons e rest ih =>
    rw [discElemLoop.eq_def]
    dsimp only
    split
    · exact h
    · exact ih _ _ _ (regShape_append _ h)

theorem discFrameLoop_shape (startRef : Nat) (fi : Nat) (fs : List FrameModel)
    (reg : List (Nat × Elem)) (lines : List String) (ref : Nat)
    (h : RegShape reg ref) :
    RegShape (discFrameLoop startRef fi fs reg lines ref).1
      (discFrameLoop startRef fi fs reg lines ref).2.2 := by
  induction fs generalizing fi reg lines ref with
  | nil => rw [discFrameLoop.eq_def]; exact h
  | cons f rest ih =>
    rw [discFrameLoop.eq_def]
    dsimp only
    split
    · exact ih _ _ _ _ h
    split
    · exact ih _ _ _ _ h
    split
    · exact ih _ _ _ _ h
    split <;>
    · exact ih _ _ _ _ (discElemLoop_shape _ _ _ _ _ _ h)

theorem regShape_length {reg : List (Nat × Elem)} {n : Nat} (h : RegShape reg n) :
    reg.length = n := by
  have := congrArg List.length h
  simpa using this

theorem buildSnapshot_shape (nodes : List AXNode) :
    RegShape (buildSnapshot nodes).1 (buildSnapshot nodes).1.length := by
  unfold buildSnapshot
  dsimp only
  split
  · have h2 := fallbackScan_shape (flattenForest nodes) _
      (walkList_shape nodes 0 { registry := [], lines := [], refCounter := 0, totalChars := 0 }
        regShape_nil)
    have h3 := regShape_length h2
    rw [← h3] at h2
    exact h2
  · have h2 := walkList_shape nodes 0
      { registry := [], lines := [], refCounter := 0, totalChars := 0 } regShape_nil
    have h3 := regShape_length h2
    rw [← h3] at h2
    exact h2

theorem fullRegistry_shape (pe : PageEnv) :
    RegShape (fullRegistry pe) (fullRegistry pe).length := by
  unfold fullRegistry
  dsimp only
  split
  · have hn := buildSnapshot_shape pe.axNodes
    have h2 := discFrameLoop_shape ((buildSnapshot pe.axNodes).1.length) 0 pe.frames
      (buildSnapshot pe.axNodes).1 [] ((buildSnapshot pe.axNodes).1.length) hn
    have h3 := regShape_length h2
    rw [← h3] at h2
    exact h2
  · exact buildSnapshot_shape pe.axNodes

/-! ## C4 — ref contiguity -/

/-- C4: for every snapshot (main-frame tree walk, flat fallback and
iframe supplement combined) the registry's keys are exactly
`1, 2, ..., n` in insertion order: refs start at 1, increase by 1 with
no gaps or duplicates, and iframe refs continue the main-frame
numbering.  Because the property holds of every freshly built registry
and `navigate` rebuilds it from scratch, the post-navigation registry
again starts at 1. -/
theorem c4_registry_contiguous (pe : PageEnv) :
    (fullRegistry pe).map Prod.fst = List.range' 1 (fullRegistry pe).length :=
  fullRegistry_shape pe

/-! ## Element-cap bounds -/

mutual

theorem walk_refLe (n : AXNode) (d : Nat) (s : BuildState)
    (h : s.refCounter ≤ maxElements) : (walk n d s).refCounter ≤ maxElements := by
  rw [walk.eq_def]
  split
  · exact h
  split
  · exact h
  split
  dsimp only
  split
  · exact walkList_refLe _ _ _ h
  split
  · split
    · exact walkList_refLe _ _ _ h
    · dsimp only; omega
  · refine walkList_refLe _ _ _ ?_
    split
    · exact h
    · exact h

theorem walkList_refLe (ns : List AXNode) (d : Nat) (s : BuildState)
    (h : s.refCounter ≤ maxElements) : (walkList ns d s).refCounter ≤ maxElements := by
  match ns with
  | [] => rw [walkList.eq_def]; exact h
  | n :: rest =>
    rw [walkList.eq_def]
    exact walkList_refLe rest d _ (walk_refLe n d s h)

end

theorem fallbackScan_refLe (ns : List AXNode) (s : BuildState)
    (h : s.refCounter ≤ maxElements) : (fallbackScan ns s).refCounter ≤ maxElements := by
  induction ns generalizing s with
  | nil => rw [fallbackScan.eq_def]; exact h
  | cons n rest ih =>
    rw [fallbackScan.eq_def]
    dsimp only
    split
    · exact h
    split
    split
    · exact ih _ h
    split
    · split
      · exact ih _ h
      · refine ih _ ?_
        dsimp only
        omega
    split
    · exact ih _ h
    · exact ih _ h

theorem discElemLoop_refBound (startRef fi : Nat) (es : List IframeElemData)
    (reg : List (Nat × Elem)) (lines : List String) (ref : Nat)
    (h : ref ≤ startRef + maxElements) :
    (discElemLoop startRef fi es reg lines ref).2.2 ≤ startRef + maxElements := by
  induction es generalizing reg lines ref with
  | nil => rw [discElemLoop.eq_def]; exact h
  | cons e rest ih =>
    rw [discElemLoop.eq_def]
    dsimp only
    split
    · exact h
    · refine ih _ _ _ ?_
      omega

theorem discFrameLoop_refBound (startRef : Nat) (fi : Nat) (fs : List FrameModel)
    (reg : List (Nat × Elem)) (lines : List String) (ref : Nat)
    (h : ref ≤ startRef + maxElements) :
    (discFrameLoop startRef fi fs reg lines ref).2.2 ≤ startRef + maxElements := by
  induction fs generalizing fi reg lines ref with
  | nil => rw [discFrameLoop.eq_def]; exact h
  | cons f rest ih =>
    rw [discFrameLoop.eq_def]
    dsimp only
    split
    · exact ih _ _ _ _ h
    split
    · exact ih _ _ _ _ h
    split
    · exact ih _ _ _ _ h
    split <;>
    · exact ih _ _ _ _ (discElemLoop_refBound _ _ _ _ _ _ h)

theorem buildSnapshot_len_le (nodes : List AXNode) :
    (buildSnapshot nodes).1.length ≤ maxElements := by
  unfold buildSnapshot
  dsimp only
  split
  · have hsh := fallbackScan_shape (flattenForest nodes) _
      (walkList_shape nodes 0 { registry := [], lines := [], refCounter := 0, totalChars := 0 }
        regShape_nil)
    rw [regShape_length hsh]
    exact fallbackScan_refLe _ _
      (walkList_refLe nodes 0 _ (Nat.zero_le _))
  · have hsh := walkList_shape nodes 0
      { registry := [], lines := [], refCounter := 0, totalChars := 0 } regShape_nil
    rw [regShape_length hsh]
    exact walkList_refLe nodes 0 _ (Nat.zero_le _)

/-! ## C5 — the caps (corrected)

Neither half of the claim holds as stated.  The iframe supplement's
guard is `ref >= start_ref + _MAX_ELEMENTS`, a budget of a further
`_MAX_ELEMENTS` refs **relative to where the main walk stopped** — so a
combined registry can hold up to `2 * _MAX_ELEMENTS` entries.  And the
character cap bounds `total_chars`, the sum of line lengths already
admitted, checked before each node: the rendered body joins the lines
with newline separators that `total_chars` never counts, so the body
itself can exceed `_MAX_SNAPSHOT_CHARS` (iframe lines are likewise
appended uncounted).  What does hold: once `total_chars` has reached
the cap, the walk and the flat fallback add nothing further, and the
main-frame registry never exceeds `_MAX_ELEMENTS`. -/

/-- A page with one main-frame interactive element and two child frames
of 50 discovered elements each: the iframe supplement adds a further
`_MAX_ELEMENTS` refs on top of the main-frame ref. -/
def c5Page : PageEnv :=
  { titleOut := .ok "t", url := "u",
    axNodes := [.node false "checkbox" "x" "" (some 7) []],
    tabUrls := [], activeTab := 0,
    frames := [{ url := "m", elems := none },
               { url := "f1", elems := some (List.replicate 50
                   { role := "button", name := "b", value := "", ty := "", selector := "s" }) },
               { url := "f2", elems := some (List.replicate 50
                   { role := "button", name := "b", value := "", ty := "", selector := "s" }) }] }

/-- A 200-character name. -/
def name200 : String := String.mk (List.replicate 200 'a')

/-- One paragraph node carrying that name: the walk renders it as one
200-character content line. -/
def c5CharNode : AXNode := AXNode.node false "paragraph" name200 "" none []

/-- Twenty paragraph nodes of 200 characters each: the walk admits all
twenty lines (the running total is below 4000 before each one), and the
newline-joined body has `20 * 200 + 19 = 4019` characters. -/
def c5CharNodes : List AXNode := List.replicate 20 c5CharNode

set_option maxRecDepth 2048

theorem walkList_nil (d : Nat) (s : BuildState) : walkList [] d s = s := by
  rw [walkList.eq_def]

theorem walk_char_step (s : BuildState)
    (hc : s.totalChars < maxSnapshotChars) (hr : s.refCounter < maxElements) :
    walk c5CharNode 0 s
      = { s with lines := s.lines ++ [indentStr 0 ++ name200],
                 totalChars := s.totalChars + 200 } := by
  have h1 : ¬ s.totalChars ≥ maxSnapshotChars := Nat.not_le.mpr hc
  have h2 : ¬ s.refCounter ≥ maxElements := Nat.not_le.mpr hr
  have hmem : "paragraph" ∈ contentRoles := by decide
  have hname : name200 ≠ "" := by decide
  have hcl : contentLine (indentStr 0) "paragraph" name200 = indentStr 0 ++ name200 := by
    decide
  have hlen : (contentLine (indentStr 0) "paragraph" name200).length = 200 := by decide
  have hi0 : (indentStr 0).length = 0 := by decide
  have hn200 : name200.length = 200 := by decide
  rw [walk.eq_def]
  simp [c5CharNode, h1, h2, hmem, hname, walkList_nil, hcl, hlen, hi0, hn200]

theorem walkList_char (k : Nat) (s : BuildState)
    (hc : s.totalChars + 200 * k ≤ maxSnapshotChars) (hr : s.refCounter < maxElements) :
    walkList (List.replicate k c5CharNode) 0 s
      = { s with lines := s.lines ++ List.replicate k (indentStr 0 ++ name200),
                 totalChars := s.totalChars + 200 * k } := by
  induction k generalizing s with
  | zero =>
    rw [walkList.eq_def]
    simp
  | succ k ih =>
    have hM : maxSnapshotChars = 4000 := rfl
    rw [hM] at hc
    rw [List.replicate_succ, walkList.eq_def]
    dsimp only
    rw [walk_char_step s (by rw [hM]; omega) hr]
    rw [ih { registry := s.registry, lines := s.lines ++ [indentStr 0 ++ name200], refCounter := s.refCounter, totalChars := s.totalChars + 200 } (by dsimp only; rw [hM]; omega) hr]
    have hli : (s.lines ++ [indentStr 0 ++ name200]) ++
        List.replicate k (indentStr 0 ++ name200)
        = s.lines ++ List.replicate (k + 1) (indentStr 0 ++ name200) := by
      simp [List.replicate_succ]
    have hto : s.totalChars + 200 + 200 * k = s.totalChars + 200 * (k + 1) := by ring
    dsimp only
    rw [hli, hto]

theorem intercalate_go_len (x s : String) (k : Nat) (acc : String) :
    (String.intercalate.go acc s (List.replicate k x)).length
      = acc.length + k * (s.length + x.length) := by
  induction k generalizing acc with
  | zero => simp [String.intercalate.go]
  | succ k ih =>
    rw [List.replicate_succ]
    show (String.intercalate.go (acc ++ s ++ x) s (List.replicate k x)).length = _
    rw [ih, String.length_append, String.length_append]
    ring

/-- The walk admits all twenty 200-character lines of `c5CharNodes`,
and the newline-joined body exceeds the character cap: the separators
are not counted against `total_chars`. -/
theorem c5CharNodes_body_len : (buildSnapshot c5CharNodes).2.length = 4019 := by
  have hw := walkList_char 20 { registry := [], lines := [], refCounter := 0, totalChars := 0 }
    (by decide) (by decide)
  unfold buildSnapshot
  dsimp only
  rw [show c5CharNodes = List.replicate 20 c5CharNode from rfl, hw]
  dsimp only
  rw [List.nil_append]
  rw [show (20 : Nat) = 19 + 1 from rfl, List.replicate_succ]
  rw [if_neg (List.cons_ne_nil _ _)]
  rw [if_pos (List.cons_ne_nil _ _)]
  show (String.intercalate.go (indentStr 0 ++ name200) "\n"
    (List.replicate 19 (indentStr 0 ++ name200))).length = 4019
  rw [intercalate_go_len]
  have h1 : (indentStr 0 ++ name200).length = 200 := by decide
  have h2 : ("\n" : String).length = 1 := by decide
  rw [h1, h2]

/-- C5, counterexample: both caps are exceeded as the claim states
them.  On `c5Page` the finished registry holds 81 entries, exceeding
`_MAX_ELEMENTS = 80` — the element cap is per discovery phase, not per
registry.  On `c5CharNodes` the rendered snapshot body has 4019
characters, exceeding `_MAX_SNAPSHOT_CHARS = 4000` — the uncounted
newline separators push the body past the cap. -/
theorem c5_counterexample :
    ((fullRegistry c5Page).length = 81 ∧ maxElements < 81)
    ∧ ((buildSnapshot c5CharNodes).2.length = 4019 ∧ maxSnapshotChars < 4019) :=
  ⟨⟨by decide, by decide⟩, ⟨c5CharNodes_body_len, by decide⟩⟩

/-- C5 amended: the caps are enforced during the walk in this weaker
sense — the main-frame walk and the flat fallback add nothing once
`total_chars` has reached `_MAX_SNAPSHOT_CHARS`, and the main-frame
registry never exceeds `_MAX_ELEMENTS` entries; but the rendered body
can still exceed `_MAX_SNAPSHOT_CHARS` (the separators are uncounted),
and the iframe supplement enforces its own budget of at most
`_MAX_ELEMENTS` additional refs beyond the point the main walk
stopped, so the combined registry is bounded by the main-frame count
plus `_MAX_ELEMENTS` (hence by `2 * _MAX_ELEMENTS`), not by
`_MAX_ELEMENTS` itself. -/
theorem c5_amended (pe : PageEnv) (n : AXNode) (d : Nat) (ns : List AXNode)
    (s : BuildState) :
    (buildSnapshot pe.axNodes).1.length ≤ maxElements
    ∧ (fullRegistry pe).length ≤ (buildSnapshot pe.axNodes).1.length + maxElements
    ∧ (s.totalChars ≥ maxSnapshotChars → walk n d s = s ∧ fallbackScan ns s = s) := by
  refine ⟨buildSnapshot_len_le _, ?_, ?_⟩
  · unfold fullRegistry
    dsimp only
    split
    · have hn := buildSnapshot_shape pe.axNodes
      have h2 := discFrameLoop_shape ((buildSnapshot pe.axNodes).1.length) 0 pe.frames
        (buildSnapshot pe.axNodes).1 [] ((buildSnapshot pe.axNodes).1.length) hn
      unfold discoverIframeElements
      rw [regShape_length h2]
      exact discFrameLoop_refBound _ _ _ _ _ _ (Nat.le_add_right _ _)
    · exact Nat.le_add_right _ _
  · intro h
    constructor
    · rw [walk.eq_def]
      simp [h]
    · cases ns with
      | nil => rw [fallbackScan.eq_def]
      | cons n2 rest =>
        rw [fallbackScan.eq_def]
        simp [h]

/-- Witness for C5 (amended): at a state whose running total already
equals the cap, neither the walk nor the fallback changes anything. -/
theorem c5_amended_witness :
    walk (.node false "paragraph" "x" "" none []) 0
        { registry := [], lines := [], refCounter := 0, totalChars := maxSnapshotChars }
      = { registry := [], lines := [], refCounter := 0, totalChars := maxSnapshotChars }
    ∧ fallbackScan [.node false "paragraph" "x" "" none []]
        { registry := [], lines := [], refCounter := 0, totalChars := maxSnapshotChars }
      = { registry := [], lines := [], refCounter := 0, totalChars := maxSnapshotChars } :=
  (c5_amended emptyPage (.node false "paragraph" "x" "" none []) 0
    [.node false "paragraph" "x" "" none []]
    { registry := [], lines := [], refCounter := 0, totalChars := maxSnapshotChars }).2.2
    (Nat.le_refl _)

/-! ## C3 — missing refs fail fast -/

theorem lookup_eq_none_of_not_mem {l : List (Nat × Elem)} {r : Nat}
    (h : r ∉ l.map Prod.fst) : l.lookup r = none := by
  induction l with
  | nil => rfl
  | cons p t ih =>
    simp only [List.map_cons, List.mem_cons, not_or] at h
    rw [show p = (p.1, p.2) from rfl, List.lookup]
    have : (r == p.1) = false := by simpa using h.1
    rw [this]
    exact ih h.2

/-- C3: for each of the six ref-taking handlers, a ref absent from the
registry yields the explicit ref-not-found error string with an empty
protocol trace (no exception, no interaction, no wrong element); and in
a registry built by a snapshot, every ref larger than the number of
registered elements is indeed absent. -/
theorem c3_ref_not_found (reg : List (Nat × Elem)) (ref : Nat) (t fp : String)
    (v tx : Option String) (env : InteractEnv)
    (h : reg.lookup ref = none) :
    doClick reg ref env = (.ok (refNotFoundLong ref), [])
    ∧ doFill reg ref t env = (.ok (refNotFoundLong ref), [])
    ∧ doType reg ref t env = (.ok (refNotFoundLong ref), [])
    ∧ doHover reg ref env = (.ok (refNotFoundShort ref), [])
    ∧ doSelectOption reg ref v tx env = (.ok (refNotFoundShort ref), [])
    ∧ doUpload reg ref fp env = (.ok (refNotFoundShort ref), [])
    ∧ (∀ pe : PageEnv, ∀ r : Nat, (fullRegistry pe).length < r →
        (fullRegistry pe).lookup r = none) := by
  refine ⟨by simp [doClick, h], by simp [doFill, h], by simp [doType, h],
    by simp [doHover, h], by simp [doSelectOption, h], by simp [doUpload, h], ?_⟩
  intro pe r hr
  refine lookup_eq_none_of_not_mem ?_
  rw [fullRegistry_shape pe, List.mem_range'_1]
  omega

/-- Witness for C3: `click(ref=999)` against a one-element registry. -/
theorem c3_ref_not_found_witness :
    doClick [(1, { backend_node_id := 5, role := "button", name := "Go" })] 999
        benignInteract
      = (.ok (refNotFoundLong 999), []) :=
  (c3_ref_not_found [(1, { backend_node_id := 5, role := "button", name := "Go" })]
    999 "" "" none none benignInteract rfl).1

/-! ## C6 — fill clears, type appends -/

/-- C6: for a main-frame element in the registry, `fill` clicks the
element's centre to focus (falling back to the protocol focus call when
no geometry is available), then issues `Control+a` and `Delete` before
`Input.insertText`, while `type` performs the same focus step and
inserts without clearing — so, over the text-input model, `fill` leaves
the field holding exactly the given text and `type` appends it to the
prior content. -/
theorem c6_fill_and_type (reg : List (Nat × Elem)) (ref : Nat) (t : String)
    (elem : Elem) (env : InteractEnv)
    (h : reg.lookup ref = some elem) (hmain : elem.frame_index = 0) :
    (∀ cx cy, env.box = some (cx, cy) →
      (doFill reg ref t env).2
          = cdpClickEvents cx cy ++ cdpKeyEvents "Control+a" ++ cdpKeyEvents "Delete"
            ++ [.insertText t]
      ∧ (doType reg ref t env).2 = cdpClickEvents cx cy ++ [.insertText t])
    ∧ (env.box = none → env.focusOk = true →
      (doFill reg ref t env).2
          = [CdpEvent.domFocus elem.backend_node_id] ++ cdpKeyEvents "Control+a"
            ++ cdpKeyEvents "Delete" ++ [.insertText t]
      ∧ (doType reg ref t env).2 = [.domFocus elem.backend_node_id, .insertText t])
    ∧ ((env.box.isSome = true ∨ env.focusOk = true) → ∀ s0 : FieldState,
        applyEvents s0 (doFill reg ref t env).2 = { content := t, selAll := false }
        ∧ applyEvents s0 (doType reg ref t env).2
            = { content := s0.content ++ t, selAll := false }) := by
  refine ⟨?_, ?_, ?_⟩
  · intro cx cy hbox
    constructor <;> simp [doFill, doType, h, hmain, hbox]
  · intro hbox hfocus
    constructor <;> simp [doFill, doType, h, hmain, hbox, hfocus]
  · intro hor s0
    match hbox : env.box with
    | some (cx, cy) =>
      constructor <;>
        simp [doFill, doType, h, hmain, hbox, applyEvents, applyEvent,
          cdpClickEvents, cdpKeyEvents, cdpKeyParams, keyMap]
    | none =>
      have hfocus : env.focusOk = true := by
        rcases hor with h1 | h1
        · rw [hbox] at h1; cases h1
        · exact h1
      constructor <;>
        simp [doFill, doType, h, hmain, hbox, hfocus, applyEvents, applyEvent,
          cdpKeyEvents, cdpKeyParams, keyMap]

/-- A main-frame textbox and a geometry-bearing environment for the C6
witness. -/
def c6Elem : Elem := { backend_node_id := 9, role := "textbox", name := "q" }

/-- Interaction environment whose box model succeeds. -/
def c6Env : InteractEnv := { benignInteract with box := some (10, 20) }

/-- Witness for C6: with prior content `"old"`, filling writes exactly
`"new"` and typing yields `"oldnew"`. -/
theorem c6_fill_and_type_witness :
    applyEvents { content := "old", selAll := false } (doFill [(1, c6Elem)] 1 "new" c6Env).2
        = { content := "new", selAll := false }
    ∧ applyEvents { content := "old", selAll := false } (doType [(1, c6Elem)] 1 "new" c6Env).2
        = { content := "old" ++ "new", selAll := false } :=
  (c6_fill_and_type [(1, c6Elem)] 1 "new" c6Elem c6Env rfl rfl).2.2 (Or.inl rfl)
    { content := "old", selAll := false }

/-! ## C10 — switch_tab bounds check -/

/-- C10: a `switch_tab` whose index is negative or not below the number
of open tabs returns the out-of-range error string naming the valid
range and leaves the session state — the active page, the protocol
session and the count of created protocol sessions — unchanged. -/
theorem c10_switch_tab_oob (p : Params) (env : DispatchEnv) (st : SessionSt)
    (pages : List String) (hctx : env.ctx = some pages)
    (hoob : p.index.getD 0 < 0 ∨ p.index.getD 0 ≥ (pages.length : Int)) :
    dispatch "switch_tab" p env st
      = (.ok ("Error: tab index " ++ toString (p.index.getD 0) ++ " out of range (0–"
              ++ toString ((pages.length : Int) - 1) ++ ")"), st) := by
  simp [dispatch, switchTabBranch, hctx, if_pos hoob]

/-- Context with two tabs for the C10 witness. -/
def c10Env : DispatchEnv := { benignEnv with ctx := some ["a", "b"] }

/-- Witness for C10: `switch_tab(index=5)` against two tabs reports
range 0–1 and leaves the session untouched. -/
theorem c10_switch_tab_oob_witness :
    dispatch "switch_tab" { index := some 5 } c10Env { pageIdx := 0, cdpId := 0, cdpCount := 0 }
      = (.ok "Error: tab index 5 out of range (0–1)",
         { pageIdx := 0, cdpId := 0, cdpCount := 0 }) := by
  rw [c10_switch_tab_oob { index := some 5 } c10Env
    { pageIdx := 0, cdpId := 0, cdpCount := 0 } ["a", "b"] rfl (Or.inr (by decide))]
  rfl

/-! ## Non-emptiness helpers -/

theorem append_ne_empty (a b : String) (h : a ≠ "") : a ++ b ≠ "" := by
  intro hc
  apply h
  apply String.ext
  have hd := congrArg String.data hc
  rw [String.data_append] at hd
  exact (List.append_eq_nil.mp hd).1

theorem append_ne_empty_right (a b : String) (h : b ≠ "") : a ++ b ≠ "" := by
  intro hc
  apply h
  apply String.ext
  have hd := congrArg String.data hc
  rw [String.data_append] at hd
  exact (List.append_eq_nil.mp hd).2

theorem takeSnapshot_ne_empty (pe : PageEnv) : takeSnapshot pe ≠ "" := by
  unfold takeSnapshot
  dsimp only
  repeat' apply append_ne_empty
  decide

theorem navigateBranch_ok_ne (p : Params) (env : DispatchEnv) (st : SessionSt)
    (s : String) (st2 : SessionSt) (h : navigateBranch p env st = (.ok s, st2)) : s ≠ "" := by
  unfold navigateBranch at h
  repeat' split at h
  all_goals simp only [Prod.mk.injEq] at h
  all_goals first
    | exact Except.noConfusion h.1
    | (injection h.1 with hx
       subst hx
       first
        | (repeat' apply append_ne_empty
           decide)
        | exact takeSnapshot_ne_empty _
        | (apply append_ne_empty_right; exact takeSnapshot_ne_empty _))

theorem snapshotBranch_ok_ne (env : DispatchEnv) (st : SessionSt)
    (s : String) (st2 : SessionSt) (h : snapshotBranch env st = (.ok s, st2)) : s ≠ "" := by
  unfold snapshotBranch at h
  repeat' split at h
  all_goals simp only [Prod.mk.injEq] at h
  all_goals first
    | exact Except.noConfusion h.1
    | (injection h.1 with hx
       subst hx
       first
        | (repeat' apply append_ne_empty
           decide)
        | exact takeSnapshot_ne_empty _
        | (apply append_ne_empty_right; exact takeSnapshot_ne_empty _))

theorem getTextBranch_ok_ne (env : DispatchEnv) (st : SessionSt)
    (s : String) (st2 : SessionSt) (h : getTextBranch env st = (.ok s, st2)) : s ≠ "" := by
  unfold getTextBranch at h
  repeat' split at h
  all_goals simp only [Prod.mk.injEq] at h
  all_goals first
    | exact Except.noConfusion h.1
    | (injection h.1 with hx
       subst hx
       first
        | (repeat' apply append_ne_empty
           decide)
        | exact takeSnapshot_ne_empty _
        | (apply append_ne_empty_right; exact takeSnapshot_ne_empty _))

theorem clickBranch_ok_ne (p : Params) (env : DispatchEnv) (st : SessionSt)
    (s : String) (st2 : SessionSt) (h : clickBranch p env st = (.ok s, st2)) : s ≠ "" := by
  unfold clickBranch at h
  repeat' split at h
  all_goals simp only [Prod.mk.injEq] at h
  all_goals first
    | exact Except.noConfusion h.1
    | (injection h.1 with hx
       subst hx
       first
        | (repeat' apply append_ne_empty
           decide)
        | exact takeSnapshot_ne_empty _
        | (apply append_ne_empty_right; exact takeSnapshot_ne_empty _))

theorem fillBranch_ok_ne (p : Params) (env : DispatchEnv) (st : SessionSt)
    (s : String) (st2 : SessionSt) (h : fillBranch p env st = (.ok s, st2)) : s ≠ "" := by
  unfold fillBranch at h
  repeat' split at h
  all_goals simp only [Prod.mk.injEq] at h
  all_goals first
    | exact Except.noConfusion h.1
    | (injection h.1 with hx
       subst hx
       first
        | (repeat' apply append_ne_empty
           decide)
        | exact takeSnapshot_ne_empty _
        | (apply append_ne_empty_right; exact takeSnapshot_ne_empty _))

theorem typeBranch_ok_ne (p : Params) (env : DispatchEnv) (st : SessionSt)
    (s : String) (st2 : SessionSt) (h : typeBranch p env st = (.ok s, st2)) : s ≠ "" := by
  unfold typeBranch at h
  repeat' split at h
  all_goals simp only [Prod.mk.injEq] at h
  all_goals first
    | exact Except.noConfusion h.1
    | (injection h.1 with hx
       subst hx
       first
        | (repeat' apply append_ne_empty
           decide)
        | exact takeSnapshot_ne_empty _
        | (apply append_ne_empty_right; exact takeSnapshot_ne_empty _))

theorem pressBranch_ok_ne (p : Params) (env : DispatchEnv) (st : SessionSt)
    (s : String) (st2 : SessionSt) (h : pressBranch p env st = (.ok s, st2)) : s ≠ "" := by
  unfold pressBranch at h
  repeat' split at h
  all_goals simp only [Prod.mk.injEq] at h
  all_goals first
    | exact Except.noConfusion h.1
    | (injection h.1 with hx
       subst hx
       first
        | (repeat' apply append_ne_empty
           decide)
        | exact takeSnapshot_ne_empty _
        | (apply append_ne_empty_right; exact takeSnapshot_ne_empty _))

theorem hoverBranch_ok_ne (p : Params) (env : DispatchEnv) (st : SessionSt)
    (s : String) (st2 : SessionSt) (h : hoverBranch p env st = (.ok s, st2)) : s ≠ "" := by
  unfold hoverBranch at h
  repeat' split at h
  all_goals simp only [Prod.mk.injEq] at h
  all_goals first
    | exact Except.noConfusion h.1
    | (injection h.1 with hx
       subst hx
       first
        | (repeat' apply append_ne_empty
           decide)
        | exact takeSnapshot_ne_empty _
        | (apply append_ne_empty_right; exact takeSnapshot_ne_empty _))

theorem selectOptionBranch_ok_ne (p : Params) (env : DispatchEnv) (st : SessionSt)
    (s : String) (st2 : SessionSt) (h : selectOptionBranch p env st = (.ok s, st2)) : s ≠ "" := by
  unfold selectOptionBranch at h
  repeat' split at h
  all_goals simp only [Prod.mk.injEq] at h
  all_goals first
    | exact Except.noConfusion h.1
    | (injection h.1 with hx
       subst hx
       first
        | (repeat' apply append_ne_empty
           decide)
        | exact takeSnapshot_ne_empty _
        | (apply append_ne_empty_right; exact takeSnapshot_ne_empty _))

theorem uploadFileBranch_ok_ne (p : Params) (env : DispatchEnv) (st : SessionSt)
    (s : String) (st2 : SessionSt) (h : uploadFileBranch p env st = (.ok s, st2)) : s ≠ "" := by
  unfold uploadFileBranch at h
  repeat' split at h
  all_goals simp only [Prod.mk.injEq] at h
  all_goals first
    | exact Except.noConfusion h.1
    | (injection h.1 with hx
       subst hx
       first
        | (repeat' apply append_ne_empty
           decide)
        | exact takeSnapshot_ne_empty _
        | (apply append_ne_empty_right; exact takeSnapshot_ne_empty _))

theorem scrollBranch_ok_ne (p : Params) (env : DispatchEnv) (st : SessionSt)
    (s : String) (st2 : SessionSt) (h : scrollBranch p env st = (.ok s, st2)) : s ≠ "" := by
  unfold scrollBranch at h
  repeat' split at h
  all_goals simp only [Prod.mk.injEq] at h
  all_goals first
    | exact Except.noConfusion h.1
    | (injection h.1 with hx
       subst hx
       first
        | (repeat' apply append_ne_empty
           decide)
        | exact takeSnapshot_ne_empty _
        | (apply append_ne_empty_right; exact takeSnapshot_ne_empty _))

theorem waitBranch_ok_ne (p : Params) (env : DispatchEnv) (st : SessionSt)
    (s : String) (st2 : SessionSt) (h : waitBranch p env st = (.ok s, st2)) : s ≠ "" := by
  unfold waitBranch at h
  repeat' split at h
  all_goals simp only [Prod.mk.injEq] at h
  all_goals first
    | exact Except.noConfusion h.1
    | (injection h.1 with hx
       subst hx
       first
        | (repeat' apply append_ne_empty
           decide)
        | exact takeSnapshot_ne_empty _
        | (apply append_ne_empty_right; exact takeSnapshot_ne_empty _))

theorem waitForBranch_ok_ne (env : DispatchEnv) (st : SessionSt)
    (s : String) (st2 : SessionSt) (h : waitForBranch env st = (.ok s, st2)) : s ≠ "" := by
  unfold waitForBranch at h
  repeat' split at h
  all_goals simp only [Prod.mk.injEq] at h
  all_goals first
    | exact Except.noConfusion h.1
    | (injection h.1 with hx
       subst hx
       first
        | (repeat' apply append_ne_empty
           decide)
        | exact takeSnapshot_ne_empty _
        | (apply append_ne_empty_right; exact takeSnapshot_ne_empty _))

theorem screenshotBranch_ok_ne (env : DispatchEnv) (st : SessionSt)
    (s : String) (st2 : SessionSt) (h : screenshotBranch env st = (.ok s, st2)) : s ≠ "" := by
  unfold screenshotBranch at h
  repeat' split at h
  all_goals simp only [Prod.mk.injEq] at h
  all_goals first
    | exact Except.noConfusion h.1
    | (injection h.1 with hx
       subst hx
       first
        | (repeat' apply append_ne_empty
           decide)
        | exact takeSnapshot_ne_empty _
        | (apply append_ne_empty_right; exact takeSnapshot_ne_empty _))

theorem backBranch_ok_ne (env : DispatchEnv) (st : SessionSt)
    (s : String) (st2 : SessionSt) (h : backBranch env st = (.ok s, st2)) : s ≠ "" := by
  unfold backBranch at h
  repeat' split at h
  all_goals simp only [Prod.mk.injEq] at h
  all_goals first
    | exact Except.noConfusion h.1
    | (injection h.1 with hx
       subst hx
       first
        | (repeat' apply append_ne_empty
           decide)
        | exact takeSnapshot_ne_empty _
        | (apply append_ne_empty_right; exact takeSnapshot_ne_empty _))

theorem forwardBranch_ok_ne (env : DispatchEnv) (st : SessionSt)
    (s : String) (st2 : SessionSt) (h : forwardBranch env st = (.ok s, st2)) : s ≠ "" := by
  unfold forwardBranch at h
  repeat' split at h
  all_goals simp only [Prod.mk.injEq] at h
  all_goals first
    | exact Except.noConfusion h.1
    | (injection h.1 with hx
       subst hx
       first
        | (repeat' apply append_ne_empty
           decide)
        | exact takeSnapshot_ne_empty _
        | (apply append_ne_empty_right; exact takeSnapshot_ne_empty _))

theorem newTabBranch_ok_ne (p : Params) (env : DispatchEnv) (st : SessionSt)
    (s : String) (st2 : SessionSt) (h : newTabBranch p env st = (.ok s, st2)) : s ≠ "" := by
  unfold newTabBranch at h
  repeat' split at h
  all_goals simp only [Prod.mk.injEq] at h
  all_goals first
    | exact Except.noConfusion h.1
    | (injection h.1 with hx
       subst hx
       first
        | (repeat' apply append_ne_empty
           decide)
        | exact takeSnapshot_ne_empty _
        | (apply append_ne_empty_right; exact takeSnapshot_ne_empty _))

theorem switchTabBranch_ok_ne (p : Params) (env : DispatchEnv) (st : SessionSt)
    (s : String) (st2 : SessionSt) (h : switchTabBranch p env st = (.ok s, st2)) : s ≠ "" := by
  unfold switchTabBranch at h
  split at h
  · simp only [Prod.mk.injEq] at h
    injection h.1 with hx
    subst hx
    decide
  next pages hctx =>
    by_cases hc : p.index.getD 0 < 0 ∨ p.index.getD 0 ≥ (pages.length : Int)
    · rw [if_pos hc] at h
      simp only [Prod.mk.injEq] at h
      injection h.1 with hx
      subst hx
      repeat' apply append_ne_empty
      decide
    · rw [if_neg hc] at h
      split at h
      · simp only [Prod.mk.injEq] at h
        exact Except.noConfusion h.1
      · simp only [Prod.mk.injEq] at h
        injection h.1 with hx
        subst hx
        apply append_ne_empty_right
        exact takeSnapshot_ne_empty _

theorem closeTabBranch_ok_ne (env : DispatchEnv) (st : SessionSt)
    (s : String) (st2 : SessionSt) (h : closeTabBranch env st = (.ok s, st2)) : s ≠ "" := by
  unfold closeTabBranch at h
  repeat' split at h
  all_goals simp only [Prod.mk.injEq] at h
  all_goals first
    | exact Except.noConfusion h.1
    | (injection h.1 with hx
       subst hx
       first
        | (repeat' apply append_ne_empty
           decide)
        | exact takeSnapshot_ne_empty _
        | (apply append_ne_empty_right; exact takeSnapshot_ne_empty _))

theorem unknownBranch_ok_ne (a : String) (st : SessionSt)
    (s : String) (st2 : SessionSt) (h : unknownBranch a st = (.ok s, st2)) : s ≠ "" := by
  unfold unknownBranch at h
  simp only [Prod.mk.injEq] at h
  injection h.1 with hx
  subst hx
  repeat' apply append_ne_empty
  decide

theorem dispatch_ok_ne_empty (a : String) (p : Params) (env : DispatchEnv)
    (st : SessionSt) (s : String) (st2 : SessionSt)
    (h : dispatch a p env st = (.ok s, st2)) : s ≠ "" := by
  rw [dispatch.eq_def] at h
  by_cases h1 : a = "navigate"
  · rw [if_pos h1] at h
    exact navigateBranch_ok_ne _ _ _ _ _ h
  rw [if_neg h1] at h
  by_cases h2 : a = "snapshot"
  · rw [if_pos h2] at h
    exact snapshotBranch_ok_ne _ _ _ _ h
  rw [if_neg h2] at h
  by_cases h3 : a = "get_text"
  · rw [if_pos h3] at h
    exact getTextBranch_ok_ne _ _ _ _ h
  rw [if_neg h3] at h
  by_cases h4 : a = "click"
  · rw [if_pos h4] at h
    exact clickBranch_ok_ne _ _ _ _ _ h
  rw [if_neg h4] at h
  by_cases h5 : a = "fill"
  · rw [if_pos h5] at h
    exact fillBranch_ok_ne _ _ _ _ _ h
  rw [if_neg h5] at h
  by_cases h6 : a = "type"
  · rw [if_pos h6] at h
    exact typeBranch_ok_ne _ _ _ _ _ h
  rw [if_neg h6] at h
  by_cases h7 : a = "press"
  · rw [if_pos h7] at h
    exact pressBranch_ok_ne _ _ _ _ _ h
  rw [if_neg h7] at h
  by_cases h8 : a = "hover"
  · rw [if_pos h8] at h
    exact hoverBranch_ok_ne _ _ _ _ _ h
  rw [if_neg h8] at h
  by_cases h9 : a = "select_option"
  · rw [if_pos h9] at h
    exact selectOptionBranch_ok_ne _ _ _ _ _ h
  rw [if_neg h9] at h
  by_cases h10 : a = "upload_file"
  · rw [if_pos h10] at h
    exact uploadFileBranch_ok_ne _ _ _ _ _ h
  rw [if_neg h10] at h
  by_cases h11 : a = "scroll"
  · rw [if_pos h11] at h
    exact scrollBranch_ok_ne _ _ _ _ _ h
  rw [if_neg h11] at h
  by_cases h12 : a = "wait"
  · rw [if_pos h12] at h
    exact waitBranch_ok_ne _ _ _ _ _ h
  rw [if_neg h12] at h
  by_cases h13 : a = "wait_for"
  · rw [if_pos h13] at h
    exact waitForBranch_ok_ne _ _ _ _ h
  rw [if_neg h13] at h
  by_cases h14 : a = "screenshot"
  · rw [if_pos h14] at h
    exact screenshotBranch_ok_ne _ _ _ _ h
  rw [if_neg h14] at h
  by_cases h15 : a = "back"
  · rw [if_pos h15] at h
    exact backBranch_ok_ne _ _ _ _ h
  rw [if_neg h15] at h
  by_cases h16 : a = "forward"
  · rw [if_pos h16] at h
    exact forwardBranch_ok_ne _ _ _ _ h
  rw [if_neg h16] at h
  by_cases h17 : a = "new_tab"
  · rw [if_pos h17] at h
    exact newTabBranch_ok_ne _ _ _ _ _ h
  rw [if_neg h17] at h
  by_cases h18 : a = "switch_tab"
  · rw [if_pos h18] at h
    exact switchTabBranch_ok_ne _ _ _ _ _ h
  rw [if_neg h18] at h
  by_cases h19 : a = "close_tab"
  · rw [if_pos h19] at h
    exact closeTabBranch_ok_ne _ _ _ _ h
  rw [if_neg h19] at h
  exact unknownBranch_ok_ne _ _ _ _ h

/-! ## C2 — act always returns a non-empty string -/

/-- C2: whatever the action string (known or unknown) and whatever
combination of present or absent parameters, and whatever the
environment's primitives do, `browser_act` returns a non-empty string:
every dispatcher branch, every error branch and the exception-recovery
path produce at least one character. -/
theorem c2_act_nonempty (a : String) (p : Params) (env : ActEnv) (st : SessionSt) :
    (browserAct a p env st).1 ≠ "" := by
  unfold browserAct
  dsimp only
  split
  · show ("Browser closed." : String) ≠ ""
    decide
  split
  · show "Browser launch failed: " ++ _ ++ "\n" ++ _ ≠ ""
    repeat' apply append_ne_empty
    decide
  split
  next s st2 heq =>
    exact dispatch_ok_ne_empty _ _ _ _ _ _ heq
  next e st2 heq =>
    dsimp only
    apply append_ne_empty_right
    exact takeSnapshot_ne_empty _

/-! ## C1 — snapshot appending (corrected)

Not every accepted action's error path appends a snapshot: the
missing-required-parameter branches (`"Error: click needs ref=N"`,
`"Error: navigate needs url=..."`, ...), `navigate`'s navigation-error
branch, `get_text`, the tab-management precondition errors,
`close_tab` with no remaining tab, and the unknown-action branch all
return their string without a snapshot.  The claim holds on the branches
described by `AppendsSnapshot` below, which includes every
handler-level interaction error (ref-not-found, click/fill failures,
upload file-not-found): those strings do carry the fresh page state. -/

theorem suffix_append_str (x s : String) : s.data <:+ (x ++ s).data := by
  rw [String.data_append]
  exact List.suffix_append _ _

theorem suffix_lift_cons {α : Type} (a : α) {l1 l2 : List α} (h : l1 <:+ l2) :
    l1 <:+ a :: l2 :=
  h.trans (List.suffix_cons a l2)

theorem suffix_lift_append {α : Type} (l : List α) {l1 l2 : List α} (h : l1 <:+ l2) :
    l1 <:+ l ++ l2 :=
  h.trans (List.suffix_append l l2)

/-- The dispatcher branches that end in a freshly built snapshot: the
ref-taking actions with their required parameters present (whatever
string their handler returns, error or success), `snapshot`, `press`
with a key, `scroll`/`wait` with their defaulted parameters present,
and the navigation/tab actions whose underlying primitives either
succeed or time out where the source catches the timeout. -/
def AppendsSnapshot (a : String) (p : Params) (env : DispatchEnv) : Prop :=
  (a = "snapshot")
  ∨ (a = "navigate" ∧ (∃ u, p.url = some u ∧ u ≠ "") ∧
      ((∃ m, env.gotoOut = .timeout m) ∨
       (env.gotoOut = .ok ∧ ∃ tr, smartWait env.navWait = .ok tr)))
  ∨ (a = "click" ∧ ∃ r s0, p.ref = some r ∧ (doClick env.registry r env.ienv).1 = .ok s0)
  ∨ (a = "fill" ∧ ∃ r t, p.ref = some r ∧ p.text = some t)
  ∨ (a = "type" ∧ ∃ r t, p.ref = some r ∧ p.text = some t)
  ∨ (a = "press" ∧ ∃ k, p.key = some k ∧ k ≠ "")
  ∨ (a = "hover" ∧ ∃ r, p.ref = some r)
  ∨ (a = "select_option" ∧ ∃ r, p.ref = some r)
  ∨ (a = "upload_file" ∧ ∃ r fp, p.ref = some r ∧ p.filepath = some fp ∧ fp ≠ "")
  ∨ (a = "scroll" ∧ ∃ n, p.amount = some n)
  ∨ (a = "wait" ∧ ∃ d, p.duration = some d)
  ∨ (a = "wait_for" ∧ (env.waitForOut = .ok ∨ ∃ m, env.waitForOut = .timeout m))
  ∨ (a = "back" ∧ env.goBackOut = .ok ∧ ∃ tr, smartWait env.backWait = .ok tr)
  ∨ (a = "forward" ∧ env.goFwdOut = .ok ∧ ∃ tr, smartWait env.fwdWait = .ok tr)
  ∨ (a = "new_tab" ∧ (∃ u, p.url = some u ∧ u ≠ "") ∧ (∃ pages, env.ctx = some pages)
      ∧ env.newSession = .ok () ∧
      ((∃ m, env.newTabGoto = .timeout m) ∨
       (env.newTabGoto = .ok ∧ ∃ tr, smartWait env.newTabWait = .ok tr)))
  ∨ (a = "switch_tab" ∧ (∃ pages, env.ctx = some pages ∧
      ¬(p.index.getD 0 < 0 ∨ p.index.getD 0 ≥ (pages.length : Int)))
      ∧ env.newSession = .ok ())
  ∨ (a = "close_tab" ∧ (∃ pages, env.ctx = some pages) ∧ env.closeOk = .ok ()
      ∧ env.remaining ≠ [] ∧ env.newSession = .ok ())

/-- C1, counterexample: `click` with its `ref` parameter absent — an
action the dispatcher accepts, on an error path — returns the bare
string `"Error: click needs ref=N"`, which does not end with the
freshly rebuilt snapshot of the current page. -/
theorem c1_counterexample :
    (browserAct "click" {} benignActEnv { pageIdx := 0, cdpId := 0, cdpCount := 0 }).1
      = "Error: click needs ref=N"
    ∧ ¬ (takeSnapshot benignActEnv.denv.post).data <:+
        ("Error: click needs ref=N" : String).data := by
  constructor
  · rfl
  · decide

set_option maxHeartbeats 3200000 in
/-- C1 amended: on every branch described by `AppendsSnapshot` — the
parameter-complete interaction actions (including all their
handler-level error strings), `snapshot`, `press`, `scroll`, `wait`,
and the navigation/tab actions whose primitives settle or only time
out — the string `browser_act` returns ends with the freshly rebuilt
snapshot; the missing-parameter, navigation-error, `get_text`,
tab-precondition, empty-`close_tab` and unknown-action branches do
not append one. -/
theorem c1_amended (a : String) (p : Params) (env : ActEnv) (st : SessionSt)
    (hlaunch : env.launch = .ok ())
    (h : AppendsSnapshot a p env.denv) :
    (takeSnapshot env.denv.post).data <:+ ((browserAct a p env st).1).data := by
  rcases h with ha | ⟨ha, ⟨u, hu, hune⟩, hnav⟩ | ⟨ha, r, s0, hr, hdo⟩
    | ⟨ha, r, t, hr, ht⟩ | ⟨ha, r, t, hr, ht⟩ | ⟨ha, k, hk, hkne⟩
    | ⟨ha, r, hr⟩ | ⟨ha, r, hr⟩ | ⟨ha, r, fp, hr, hfp, hfpne⟩
    | ⟨ha, n, hn⟩ | ⟨ha, d, hd⟩ | ⟨ha, hw⟩ | ⟨ha, hgb, tr, htr⟩
    | ⟨ha, hgf, tr, htr⟩ | ⟨ha, ⟨u, hu, hune⟩, ⟨pages, hctx⟩, hns, hnt⟩
    | ⟨ha, ⟨pages, hctx, hidx⟩, hns⟩ | ⟨ha, ⟨pages, hctx⟩, hco, hrem, hns⟩
  · subst ha
    have hnorm : pyStrip (pyLower "snapshot") = "snapshot" := rfl
    simp [browserAct, dispatch, snapshotBranch, hnorm, hlaunch]
    all_goals repeat first | exact List.suffix_refl _ | apply suffix_lift_cons | apply suffix_lift_append
  · subst ha
    have hnorm : pyStrip (pyLower "navigate") = "navigate" := rfl
    rcases hnav with ⟨m, hgo⟩ | ⟨hgo, tr, htr⟩
    · simp [browserAct, dispatch, navigateBranch, hnorm, hlaunch, hu, hune, hgo]
      all_goals repeat first | exact List.suffix_refl _ | apply suffix_lift_cons | apply suffix_lift_append
    · simp [browserAct, dispatch, navigateBranch, hnorm, hlaunch, hu, hune, hgo, htr]
      all_goals repeat first | exact List.suffix_refl _ | apply suffix_lift_cons | apply suffix_lift_append
  · subst ha
    have hnorm : pyStrip (pyLower "click") = "click" := rfl
    simp [browserAct, dispatch, clickBranch, hnorm, hlaunch, hr, hdo]
    all_goals repeat first | exact List.suffix_refl _ | apply suffix_lift_cons | apply suffix_lift_append
  · subst ha
    have hnorm : pyStrip (pyLower "fill") = "fill" := rfl
    rcases hdf : (doFill env.denv.registry r t env.denv.ienv).1 with m | msg <;>
      simp [browserAct, dispatch, fillBranch, hnorm, hlaunch, hr, ht, hdf]
    all_goals repeat first | exact List.suffix_refl _ | apply suffix_lift_cons | apply suffix_lift_append
  · subst ha
    have hnorm : pyStrip (pyLower "type") = "type" := rfl
    rcases hdt : (doType env.denv.registry r t env.denv.ienv).1 with m | msg <;>
      simp [browserAct, dispatch, typeBranch, hnorm, hlaunch, hr, ht, hdt]
    all_goals repeat first | exact List.suffix_refl _ | apply suffix_lift_cons | apply suffix_lift_append
  · subst ha
    have hnorm : pyStrip (pyLower "press") = "press" := rfl
    simp [browserAct, dispatch, pressBranch, hnorm, hlaunch, hk, hkne]
    all_goals repeat first | exact List.suffix_refl _ | apply suffix_lift_cons | apply suffix_lift_append
  · subst ha
    have hnorm : pyStrip (pyLower "hover") = "hover" := rfl
    rcases hdh : (doHover env.denv.registry r env.denv.ienv).1 with m | msg <;>
      simp [browserAct, dispatch, hoverBranch, hnorm, hlaunch, hr, hdh]
    all_goals repeat first | exact List.suffix_refl _ | apply suffix_lift_cons | apply suffix_lift_append
  · subst ha
    have hnorm : pyStrip (pyLower "select_option") = "select_option" := rfl
    rcases hds : (doSelectOption env.denv.registry r p.value p.text env.denv.ienv).1 with m | msg <;>
      simp [browserAct, dispatch, selectOptionBranch, hnorm, hlaunch, hr, hds]
    all_goals repeat first | exact List.suffix_refl _ | apply suffix_lift_cons | apply suffix_lift_append
  · subst ha
    have hnorm : pyStrip (pyLower "upload_file") = "upload_file" := rfl
    rcases hdu : (doUpload env.denv.registry r fp env.denv.ienv).1 with m | msg <;>
      simp [browserAct, dispatch, uploadFileBranch, hnorm, hlaunch, hr, hfp, hfpne, hdu]
    all_goals repeat first | exact List.suffix_refl _ | apply suffix_lift_cons | apply suffix_lift_append
  · subst ha
    have hnorm : pyStrip (pyLower "scroll") = "scroll" := rfl
    simp [browserAct, dispatch, scrollBranch, hnorm, hlaunch, hn]
    all_goals repeat first | exact List.suffix_refl _ | apply suffix_lift_cons | apply suffix_lift_append
  · subst ha
    have hnorm : pyStrip (pyLower "wait") = "wait" := rfl
    simp [browserAct, dispatch, waitBranch, hnorm, hlaunch, hd]
    all_goals repeat first | exact List.suffix_refl _ | apply suffix_lift_cons | apply suffix_lift_append
  · subst ha
    have hnorm : pyStrip (pyLower "wait_for") = "wait_for" := rfl
    rcases hw with hw | ⟨m, hw⟩
    · simp [browserAct, dispatch, waitForBranch, hnorm, hlaunch, hw]
      all_goals repeat first | exact List.suffix_refl _ | apply suffix_lift_cons | apply suffix_lift_append
    · simp [browserAct, dispatch, waitForBranch, hnorm, hlaunch, hw]
      all_goals repeat first | exact List.suffix_refl _ | apply suffix_lift_cons | apply suffix_lift_append
  · subst ha
    have hnorm : pyStrip (pyLower "back") = "back" := rfl
    simp [browserAct, dispatch, backBranch, hnorm, hlaunch, hgb, htr]
    all_goals repeat first | exact List.suffix_refl _ | apply suffix_lift_cons | apply suffix_lift_append
  · subst ha
    have hnorm : pyStrip (pyLower "forward") = "forward" := rfl
    simp [browserAct, dispatch, forwardBranch, hnorm, hlaunch, hgf, htr]
    all_goals repeat first | exact List.suffix_refl _ | apply suffix_lift_cons | apply suffix_lift_append
  · subst ha
    have hnorm : pyStrip (pyLower "new_tab") = "new_tab" := rfl
    rcases hnt with ⟨m, hnt⟩ | ⟨hnt, tr, htr⟩
    · simp [browserAct, dispatch, newTabBranch, hnorm, hlaunch, hu, hune, hctx, hns, hnt]
      all_goals repeat first | exact List.suffix_refl _ | apply suffix_lift_cons | apply suffix_lift_append
    · simp [browserAct, dispatch, newTabBranch, hnorm, hlaunch, hu, hune, hctx, hns, hnt, htr]
      all_goals repeat first | exact List.suffix_refl _ | apply suffix_lift_cons | apply suffix_lift_append
  · subst ha
    have hnorm : pyStrip (pyLower "switch_tab") = "switch_tab" := rfl
    simp [browserAct, dispatch, switchTabBranch, hnorm, hlaunch, hctx, hidx, hns]
    all_goals repeat first | exact List.suffix_refl _ | apply suffix_lift_cons | apply suffix_lift_append
  · subst ha
    have hnorm : pyStrip (pyLower "close_tab") = "close_tab" := rfl
    cases hremv : env.denv.remaining with
    | nil => exact absurd hremv hrem
    | cons r0 rs =>
      simp [browserAct, dispatch, closeTabBranch, hnorm, hlaunch, hctx, hco, hremv, hns]
      all_goals repeat first | exact List.suffix_refl _ | apply suffix_lift_cons | apply suffix_lift_append

/-- Witness for C1 (amended), at the `snapshot` action over the blank
page. -/
theorem c1_amended_witness :
    (takeSnapshot benignActEnv.denv.post).data <:+
      ((browserAct "snapshot" {} benignActEnv
          { pageIdx := 0, cdpId := 0, cdpCount := 0 }).1).data :=
  c1_amended "snapshot" {} benignActEnv { pageIdx := 0, cdpId := 0, cdpCount := 0 }
    rfl (Or.inl rfl)

end SpaceBlack
